import Mathlib

/-!
ENISI-MSM-IBD: the compartment core.

A shallow embedding of `src/compartment/Compartment.cpp`.

* `size_t` values are natural numbers below `2 ^ 64`; every operation that can
  leave that range is reduced modulo `2 ^ 64` explicitly.
* `double` values are rationals (exact arithmetic); the conversion of a
  `double` to an `int` is truncation toward zero. Where the rounding of the
  `double` operations decides a property, the continuous transform is also
  given with every sum and difference rounded (`Compartment.transformRounded`,
  `roundDouble`).
* A `Compartment *` is `Option CompartmentType`: compartments are singletons,
  one per type, held in the static table `INSTANCES`, so a non-null pointer is
  identified by the type of the compartment it points to and `this` is
  `some mType`.
-/

namespace ENISI

/-! ## Partition sizing -/

/-- The number of values of a `size_t`. -/
def sizeMod : Nat := 2 ^ 64

/-- Unsigned `size_t` subtraction `a - b`, wrapping modulo `2 ^ 64`. -/
def subSize (a b : Nat) : Nat := (a + sizeMod - b % sizeMod) % sizeMod

/-- Unsigned `size_t` multiplication `a * b`, wrapping modulo `2 ^ 64`. -/
def mulSize (a b : Nat) : Nat := (a * b) % sizeMod

/-- Unsigned `size_t` increment, wrapping modulo `2 ^ 64`. -/
def incSize (a : Nat) : Nat := (a + 1) % sizeMod

/-- The function `Compartment::localCount`, with the rank and the world size of the
running process (read from `repast::RepastProcess::instance()` in the source)
as explicit arguments. -/
def localCount (rank worldSize globalCount : Nat) : Nat :=
  let LocalCount := globalCount / worldSize
  if rank < subSize globalCount (mulSize LocalCount worldSize) then incSize LocalCount
  else LocalCount

/-- The sum of `localCount globalCount` over the ranks `0 .. worldSize - 1`. -/
def totalCount (worldSize globalCount : Nat) : Nat :=
  ((List.range worldSize).map (fun rank => localCount rank worldSize globalCount)).sum

/-! ## Coordinates, dimensions and borders -/

/-- The enumeration `Compartment::Type`: the closed enumeration of compartment types. -/
inductive CompartmentType where
  | lumen
  | epithilium
  | lamina_propria
  | gastric_lymph_node
  | INVALID
  deriving DecidableEq, Repr

/-- The enumeration `Borders::Coodinate`: the two axes. -/
inductive Coodinate where
  | X
  | Y
  deriving DecidableEq, Repr

/-- The enumeration `Borders::Side`: the two edges of an axis. -/
inductive Side where
  | LOW
  | HIGH
  deriving DecidableEq, Repr

/-- The enumeration `Borders::BoundState`: the classification of one coordinate. -/
inductive BoundState where
  | OUT_LOW
  | INBOUND
  | OUT_HIGH
  deriving DecidableEq, Repr

/-- A `std::vector< T >` of size two, one entry per axis. -/
structure Vec2 (α : Type) where
  x : α
  y : α
  deriving DecidableEq, Repr

/-- Read access `v[i]`. -/
def Vec2.get {α : Type} (v : Vec2 α) : Coodinate → α
  | Coodinate.X => v.x
  | Coodinate.Y => v.y

/-- Write access `v[i] = a`. -/
def Vec2.set {α : Type} (v : Vec2 α) (i : Coodinate) (a : α) : Vec2 α :=
  match i with
  | Coodinate.X => ⟨a, v.y⟩
  | Coodinate.Y => ⟨v.x, a⟩

/-- The class `repast::GridDimensions`: origin and extents, both vectors of `double`. -/
structure GridDimensions where
  origin : Vec2 ℚ
  extents : Vec2 ℚ
  deriving DecidableEq, Repr

/-- Conversion of a `double` to an `int`: truncation toward zero. -/
def toInt (q : ℚ) : ℤ := if 0 ≤ q then ⌊q⌋ else ⌈q⌉

/-- Modelled from the spec: the edge type of a `Borders` edge (`grid/Borders.h`
is not among the sources): permeable or impermeable. The source only names
`Borders::PERMIABLE`. -/
inductive BorderType where
  | PERMIABLE
  | IMPERMIABLE
  deriving DecidableEq, Repr

/-- Modelled from the spec: `Borders` (`grid/Borders.h` and `grid/Borders.cpp`
are not among the sources): the dimensions of a rectangular domain and one edge
type per axis and side. -/
structure Borders where
  mDimensions : GridDimensions
  mBorderTypes : Coodinate → Side → BorderType

/-- Modelled from the spec: the constructor `Borders(dimensions)`; the edge
type it gives to every edge is not stated and is taken as an argument. -/
def Borders.construct (dimensions : GridDimensions) (defaultType : BorderType) : Borders :=
  ⟨dimensions, fun _ _ => defaultType⟩

/-- Modelled from the spec: `Borders::setBorderType(coordinate, side, type)`. -/
def Borders.setBorderType (b : Borders) (coordinate : Coodinate) (side : Side)
    (type : BorderType) : Borders :=
  ⟨b.mDimensions,
    fun i s => if i = coordinate ∧ s = side then type else b.mBorderTypes i s⟩

/-- Modelled from the spec: `Borders::transform(point)` is a no-op for a
permeable edge and for an impermeable edge alike: `Borders` only classifies. -/
def Borders.transform {α : Type} (_b : Borders) (pt : Vec2 α) : Vec2 α := pt

/-- Modelled from the spec: the classification of the coordinate `c` on axis
`i` against `[origin, origin + extent)`. -/
def Borders.boundState (b : Borders) (i : Coodinate) (c : ℚ) : BoundState :=
  if c < b.mDimensions.origin.get i then BoundState.OUT_LOW
  else if c < b.mDimensions.origin.get i + b.mDimensions.extents.get i then BoundState.INBOUND
  else BoundState.OUT_HIGH

/-- Modelled from the spec: `Borders::boundsCheck(point, &BoundState)` for a
point of `double`s: whether the point is inside on every axis, and the
classification of each axis. -/
def Borders.boundsCheck (b : Borders) (pt : Vec2 ℚ) : Bool × Vec2 BoundState :=
  let sx := b.boundState Coodinate.X pt.x
  let sy := b.boundState Coodinate.Y pt.y
  (decide (sx = BoundState.INBOUND ∧ sy = BoundState.INBOUND), ⟨sx, sy⟩)

/-- Modelled from the spec: `Borders::boundsCheck(point, &BoundState)` for a
point of `int`s: the same classification of the integer coordinates. -/
def Borders.boundsCheckGrid (b : Borders) (pt : Vec2 ℤ) : Bool × Vec2 BoundState :=
  b.boundsCheck ⟨(pt.x : ℚ), (pt.y : ℚ)⟩

/-! ## The compartment -/

/-- The values the constructor reads from the configuration of one
compartment (`Properties::getValue` and `Properties::toEnum` are not among the
sources; their results are the fields of this record). -/
structure Config where
  spaceX : ℚ
  spaceY : ℚ
  gridSize : ℚ
  borderLowCompartment : CompartmentType
  borderLowType : BorderType
  borderHighCompartment : CompartmentType
  borderHighType : BorderType

/-- The member `mProperties` of a compartment, with the fields the constructor
assigns. -/
structure Properties where
  spaceX : ℚ
  spaceY : ℚ
  gridSize : ℚ
  gridX : ℚ
  gridY : ℚ
  borderLowCompartment : CompartmentType
  borderLowType : BorderType
  borderHighCompartment : CompartmentType
  borderHighType : BorderType

/-- The geometric and topological members of `Compartment`. -/
structure Compartment where
  mType : CompartmentType
  mProperties : Properties
  mDimensions : GridDimensions
  mpSpaceBorders : Borders
  mpGridBorders : Borders
  mAdjacentCompartments : Coodinate → Side → CompartmentType

/-- The constructor `Compartment::Compartment(const Type & type)`, on the
configuration values of the compartment. `defaultType` is the edge type a fresh
`Borders` gives to its edges. -/
def Compartment.construct (type : CompartmentType) (cfg : Config)
    (defaultType : BorderType) : Compartment :=
  let spaceX0 := cfg.spaceX
  let spaceY0 := cfg.spaceY
  let gridSize := cfg.gridSize
  let gridX : ℚ := ((⌈spaceX0 / gridSize⌉ : ℤ) : ℚ)
  let spaceX := gridX * gridSize
  let gridY : ℚ := ((⌈spaceY0 / gridSize⌉ : ℤ) : ℚ)
  let spaceY := gridY * gridSize
  let Origin : Vec2 ℚ := ⟨0, 0⟩
  let SpaceExtents : Vec2 ℚ := ⟨spaceX, spaceY⟩
  let GridExtents : Vec2 ℚ := ⟨gridX, gridY⟩
  let mDimensions : GridDimensions := ⟨Origin, SpaceExtents⟩
  let GridDims : GridDimensions := ⟨Origin, GridExtents⟩
  let mpSpaceBorders :=
    ((Borders.construct mDimensions defaultType).setBorderType
      Coodinate.Y Side.LOW cfg.borderLowType).setBorderType
      Coodinate.Y Side.HIGH cfg.borderHighType
  let mpGridBorders :=
    ((Borders.construct GridDims defaultType).setBorderType
      Coodinate.Y Side.LOW cfg.borderLowType).setBorderType
      Coodinate.Y Side.HIGH cfg.borderHighType
  let adjacent : Coodinate → Side → CompartmentType := fun i s =>
    match i, s with
    | Coodinate.X, Side.LOW => CompartmentType.INVALID
    | Coodinate.X, Side.HIGH => CompartmentType.INVALID
    | Coodinate.Y, Side.LOW => cfg.borderLowCompartment
    | Coodinate.Y, Side.HIGH => cfg.borderHighCompartment
  ⟨type,
    ⟨spaceX, spaceY, gridSize, gridX, gridY, cfg.borderLowCompartment, cfg.borderLowType,
      cfg.borderHighCompartment, cfg.borderHighType⟩,
    mDimensions, mpSpaceBorders, mpGridBorders, adjacent⟩

/-- The accessor `Compartment::dimensions()`: the continuous-space dimensions. -/
def Compartment.dimensions (self : Compartment) : GridDimensions := self.mDimensions

/-- The body of the `switch` of `Compartment::transform(std::vector< double > &)`
for axis `i`, entered with `pTarget == NULL`: the new target and point.
`INSTANCES` is the table of the singletons, read through `instance(type)`. -/
def Compartment.transformSwitch (INSTANCES : CompartmentType → Compartment)
    (self : Compartment) (i : Coodinate) (state : BoundState) (pt : Vec2 ℚ) :
    Option CompartmentType × Vec2 ℚ :=
  match state with
  | BoundState.OUT_LOW =>
    if self.mAdjacentCompartments i Side.LOW ≠ CompartmentType.INVALID then
      let pTarget := self.mAdjacentCompartments i Side.LOW
      let Dimensions := (INSTANCES pTarget).dimensions
      (some pTarget,
        pt.set i (pt.get i
          + (Dimensions.origin.get i + Dimensions.extents.get i - self.mDimensions.origin.get i)))
    else (none, pt)
  | BoundState.OUT_HIGH =>
    if self.mAdjacentCompartments i Side.HIGH ≠ CompartmentType.INVALID then
      let pTarget := self.mAdjacentCompartments i Side.HIGH
      let Dimensions := (INSTANCES pTarget).dimensions
      (some pTarget,
        pt.set i (pt.get i + (Dimensions.origin.get i - self.mDimensions.extents.get i)))
    else (none, pt)
  | BoundState.INBOUND => (none, pt)

/-- The `for` loop of `Compartment::transform(std::vector< double > &)` over
the axes still to visit: it stops as soon as `pTarget != NULL`. -/
def Compartment.transformLoop (INSTANCES : CompartmentType → Compartment)
    (self : Compartment) (boundState : Vec2 BoundState) :
    List Coodinate → Option CompartmentType × Vec2 ℚ → Option CompartmentType × Vec2 ℚ
  | [], st => st
  | i :: rest, (pTarget, pt) =>
    if pTarget = none then
      Compartment.transformLoop INSTANCES self boundState rest
        (self.transformSwitch INSTANCES i (boundState.get i) pt)
    else (pTarget, pt)

/-- The function `Compartment::transform(std::vector< double > & pt)`: the compartment
returned (`none` for `NULL`) and the point as left in `pt`. -/
def Compartment.transform (INSTANCES : CompartmentType → Compartment)
    (self : Compartment) (pt : Vec2 ℚ) : Option CompartmentType × Vec2 ℚ :=
  let pt := self.mpSpaceBorders.transform pt
  let check := self.mpSpaceBorders.boundsCheck pt
  if check.1 then (some self.mType, pt)
  else
    Compartment.transformLoop INSTANCES self check.2 [Coodinate.X, Coodinate.Y] (none, pt)

/-- The body of the `switch` of `Compartment::transform(std::vector< int > &)`
for axis `i`, entered with `pTarget == NULL`. The shift is a `double`; the
sum is converted back to `int`. -/
def Compartment.transformGridSwitch (INSTANCES : CompartmentType → Compartment)
    (self : Compartment) (i : Coodinate) (state : BoundState) (pt : Vec2 ℤ) :
    Option CompartmentType × Vec2 ℤ :=
  match state with
  | BoundState.OUT_LOW =>
    if self.mAdjacentCompartments i Side.LOW ≠ CompartmentType.INVALID then
      let pTarget := self.mAdjacentCompartments i Side.LOW
      let Dimensions := (INSTANCES pTarget).dimensions
      (some pTarget,
        pt.set i (toInt ((pt.get i : ℚ)
          + (Dimensions.origin.get i + Dimensions.extents.get i - self.mDimensions.origin.get i))))
    else (none, pt)
  | BoundState.OUT_HIGH =>
    if self.mAdjacentCompartments i Side.HIGH ≠ CompartmentType.INVALID then
      let pTarget := self.mAdjacentCompartments i Side.HIGH
      let Dimensions := (INSTANCES pTarget).dimensions
      (some pTarget,
        pt.set i (toInt ((pt.get i : ℚ)
          + (Dimensions.origin.get i - self.mDimensions.extents.get i))))
    else (none, pt)
  | BoundState.INBOUND => (none, pt)

/-- The `for` loop of `Compartment::transform(std::vector< int > &)` over the
axes still to visit: it visits every axis and skips the body (`continue`) once
`pTarget != NULL`. -/
def Compartment.transformGridLoop (INSTANCES : CompartmentType → Compartment)
    (self : Compartment) (boundState : Vec2 BoundState) :
    List Coodinate → Option CompartmentType × Vec2 ℤ → Option CompartmentType × Vec2 ℤ
  | [], st => st
  | i :: rest, (pTarget, pt) =>
    if pTarget ≠ none then
      Compartment.transformGridLoop INSTANCES self boundState rest (pTarget, pt)
    else
      Compartment.transformGridLoop INSTANCES self boundState rest
        (self.transformGridSwitch INSTANCES i (boundState.get i) pt)

/-- The function `Compartment::transform(std::vector< int > & pt)`: the compartment
returned (`none` for `NULL`) and the point as left in `pt`. -/
def Compartment.transformGrid (INSTANCES : CompartmentType → Compartment)
    (self : Compartment) (pt : Vec2 ℤ) : Option CompartmentType × Vec2 ℤ :=
  let pt := self.mpGridBorders.transform pt
  let check := self.mpGridBorders.boundsCheckGrid pt
  if check.1 then (some self.mType, pt)
  else
    Compartment.transformGridLoop INSTANCES self check.2 [Coodinate.X, Coodinate.Y] (none, pt)

/-! ## The continuous transform in double arithmetic -/

/-- The body of the `switch` of `Compartment::transform(std::vector< double > &)`
for axis `i`, entered with `pTarget == NULL`, with the result of every `double`
addition and subtraction of the source rounded by `fl`:
`*itIn += Dimensions.origin(i) + Dimensions.extents(i) - mDimensions.origin(i)`
and `*itIn += Dimensions.origin(i) - mDimensions.extents(i)`. -/
def Compartment.transformSwitchRounded (fl : ℚ → ℚ)
    (INSTANCES : CompartmentType → Compartment)
    (self : Compartment) (i : Coodinate) (state : BoundState) (pt : Vec2 ℚ) :
    Option CompartmentType × Vec2 ℚ :=
  match state with
  | BoundState.OUT_LOW =>
    if self.mAdjacentCompartments i Side.LOW ≠ CompartmentType.INVALID then
      let pTarget := self.mAdjacentCompartments i Side.LOW
      let Dimensions := (INSTANCES pTarget).dimensions
      (some pTarget,
        pt.set i (fl (pt.get i
          + fl (fl (Dimensions.origin.get i + Dimensions.extents.get i)
              - self.mDimensions.origin.get i))))
    else (none, pt)
  | BoundState.OUT_HIGH =>
    if self.mAdjacentCompartments i Side.HIGH ≠ CompartmentType.INVALID then
      let pTarget := self.mAdjacentCompartments i Side.HIGH
      let Dimensions := (INSTANCES pTarget).dimensions
      (some pTarget,
        pt.set i (fl (pt.get i
          + fl (Dimensions.origin.get i - self.mDimensions.extents.get i))))
    else (none, pt)
  | BoundState.INBOUND => (none, pt)

/-- The `for` loop of `Compartment::transform(std::vector< double > &)` over
the axes still to visit, with rounded arithmetic: it stops as soon as
`pTarget != NULL`. -/
def Compartment.transformLoopRounded (fl : ℚ → ℚ)
    (INSTANCES : CompartmentType → Compartment)
    (self : Compartment) (boundState : Vec2 BoundState) :
    List Coodinate → Option CompartmentType × Vec2 ℚ → Option CompartmentType × Vec2 ℚ
  | [], st => st
  | i :: rest, (pTarget, pt) =>
    if pTarget = none then
      Compartment.transformLoopRounded fl INSTANCES self boundState rest
        (self.transformSwitchRounded fl INSTANCES i (boundState.get i) pt)
    else (pTarget, pt)

/-- The function `Compartment::transform(std::vector< double > & pt)` with the
arithmetic of the source rounded by `fl`: with `roundDouble` the function as it
runs on `double`s, with the identity the exact `Compartment.transform`. -/
def Compartment.transformRounded (fl : ℚ → ℚ) (INSTANCES : CompartmentType → Compartment)
    (self : Compartment) (pt : Vec2 ℚ) : Option CompartmentType × Vec2 ℚ :=
  let pt := self.mpSpaceBorders.transform pt
  let check := self.mpSpaceBorders.boundsCheck pt
  if check.1 then (some self.mType, pt)
  else
    Compartment.transformLoopRounded fl INSTANCES self check.2
      [Coodinate.X, Coodinate.Y] (none, pt)

/-! ## Agents, layers and fields -/

/-- Modelled from the spec: an agent as the core sees it (`agent/Agent.h` is
not among the sources): an identity and a type; the core never reads its
state. -/
structure Agent where
  id : Nat
  type : Int
  deriving DecidableEq, Repr

/-- Modelled from the spec: a field layer `SharedValueLayer`
(`agent/SharedValueLayer.h` is not among the sources): the number of slots per
cell, the cells it holds, and the vector of field values stored at each cell.
Its ghost cache `mBuffer` holds the snapshots merged by `updateBufferValues`. -/
structure SharedValueLayer where
  mSize : Nat
  holds : Vec2 ℤ → Bool
  values : Vec2 ℤ → List ℚ
  mBuffer : List (Vec2 ℤ × List ℚ)

/-- Modelled from the spec: the access `operator[](pt)` of a field layer, the
vector stored at the cell. -/
def SharedValueLayer.get (d : SharedValueLayer) (pt : Vec2 ℤ) : List ℚ := d.values pt

/-- Modelled from the spec: the assignment `operator[](pt) = v` of a field
layer. -/
def SharedValueLayer.assign (d : SharedValueLayer) (pt : Vec2 ℤ) (v : List ℚ) :
    SharedValueLayer :=
  { d with values := fun q => if q = pt then v else d.values q }

/-- Modelled from the spec: the lookup `tryLocation(pt)` of a ghost snapshot,
the vector stored for the coordinate, or `NULL` when the snapshot has no
matching coordinate. -/
def SharedValueLayer.tryLocation (d : SharedValueLayer) (pt : Vec2 ℤ) : Option (List ℚ) :=
  if d.holds pt then some (d.values pt) else none

/-- Modelled from the spec: the merge `updateBufferValues(other, borders)` of a
ghost snapshot into the ghost cache of a field layer; the vectors of the local
cells are not touched. Which cells of `other` are merged is given by
`boundary`. -/
def SharedValueLayer.updateBufferValues (d other : SharedValueLayer)
    (boundary : List (Vec2 ℤ)) : SharedValueLayer :=
  { d with mBuffer := d.mBuffer ++ (boundary.filter other.holds).map (fun q => (q, other.values q)) }

/-- Modelled from the spec: the interface of the spatial partition
`SharedLayer` (`ICompartmentLayer.h` is not among the sources), as operations
on a layer state `L`. A `NULL` agent pointer is `none`; the functions with an
output argument take its old value and return the new one. -/
structure LayerOps (L : Type) where
  getAgent : L → Nat → Option Agent
  addAgent : L → Option Agent → Vec2 ℚ → Bool × L
  removeAgent : L → Option Agent → L
  moveTo : L → Nat → Vec2 ℚ → Bool × L
  getLocation : L → Nat → Vec2 ℚ → Vec2 ℚ
  getAgents : L → Vec2 ℤ → List Agent → List Agent
  getAgentsOfTypes : L → Vec2 ℤ → Int → List Agent → List Agent
  getRank : L → Vec2 ℤ → Int → Int → Nat
  gridDimensions : L → GridDimensions
  nonLocalValues : L → List SharedValueLayer
  addDiffuserValues : L → L
  synchronizeDiffuser : L → L

/-- Modelled from the spec: a field `Cytokine` (`agent/Cytokine.h` is not among
the sources): qualified name, index and initial value. -/
structure Cytokine where
  mName : String
  mIndex : Nat
  mInitialValue : ℚ
  deriving DecidableEq, Repr

/-- The table `Compartment::Names`; its last entry, for `INVALID`, is `NULL`
and is never read for a live compartment. -/
def Names : CompartmentType → String
  | CompartmentType.lumen => "lumen"
  | CompartmentType.epithilium => "epithilium"
  | CompartmentType.lamina_propria => "lamina_propria"
  | CompartmentType.gastric_lymph_node => "gastric_lymph_node"
  | CompartmentType.INVALID => ""

/-- The lookup `find(name)` of the `std::map< std::string, size_t >`
`mCytokineMap`, kept as a list of pairs with distinct keys. -/
def mapFind (m : List (String × Nat)) (name : String) : Option Nat :=
  match m with
  | [] => none
  | (k, v) :: rest => if k = name then some v else mapFind rest name

/-- The member `insert(std::make_pair(name, index))` of the map: an existing
key keeps its value. -/
def mapInsert (m : List (String × Nat)) (name : String) (index : Nat) : List (String × Nat) :=
  match mapFind m name with
  | some _ => m
  | none => m ++ [(name, index)]

/-- The access `operator[](name)` of the map: a missing key is inserted with
the value 0. -/
def mapIndex (m : List (String × Nat)) (name : String) : Nat × List (String × Nat) :=
  match mapFind m name with
  | some v => (v, m)
  | none => (0, m ++ [(name, 0)])

/-- The mutable members of `Compartment`: the layer, the ordered field list,
the name-to-index map and the field layer (`none` for `NULL`). -/
structure Members (L : Type) where
  mpLayer : L
  mCytokines : List Cytokine
  mCytokineMap : List (String × Nat)
  mpDiffuserValues : Option SharedValueLayer

/-- The members of a compartment with its layer replaced. -/
def Members.withLayer {L : Type} (m : Members L) (layer : L) : Members L :=
  { m with mpLayer := layer }

/-- The state of all compartments with the members of one replaced. -/
def setMembers {L : Type} (world : CompartmentType → Members L) (type : CompartmentType)
    (m : Members L) : CompartmentType → Members L :=
  fun t => if t = type then m else world t

/-! ## Agent movement and agent queries -/

/-- Modelled from the spec: the signed distance `distanceFromBorder(point,
axis, side)` from the point to the named edge, measured along the axis
(coordinate minus edge): negative below an edge, positive above it. -/
def Borders.distanceFromBorder (b : Borders) (pt : Vec2 ℚ) (i : Coodinate) (side : Side) : ℚ :=
  match side with
  | Side.LOW => pt.get i - b.mDimensions.origin.get i
  | Side.HIGH => pt.get i - (b.mDimensions.origin.get i + b.mDimensions.extents.get i)

/-- The function `Compartment::addAgent(agent, pt)`, on the members of the
compartment: the result of the layer and the new members. -/
def Compartment.addAgent {L : Type} (ops : LayerOps L) (m : Members L)
    (agent : Option Agent) (pt : Vec2 ℚ) : Bool × Members L :=
  ((ops.addAgent m.mpLayer agent pt).1, m.withLayer (ops.addAgent m.mpLayer agent pt).2)

/-- The function `Compartment::removeAgent(pAgent)`, on the members of the
compartment. -/
def Compartment.removeAgent {L : Type} (ops : LayerOps L) (m : Members L)
    (pAgent : Option Agent) : Members L :=
  m.withLayer (ops.removeAgent m.mpLayer pAgent)

/-- The function `Compartment::moveTo(id, pt)`: the value returned, the new
state of all compartments, and the point as left in `pt`. -/
def Compartment.moveTo {L : Type} (ops : LayerOps L)
    (INSTANCES : CompartmentType → Compartment) (world : CompartmentType → Members L)
    (self : Compartment) (id : Nat) (pt : Vec2 ℚ) :
    Bool × (CompartmentType → Members L) × Vec2 ℚ :=
  let r := self.transform INSTANCES pt
  if r.1 = some self.mType then
    let moved := ops.moveTo (world self.mType).mpLayer id r.2
    (moved.1, setMembers world self.mType ((world self.mType).withLayer moved.2), r.2)
  else
    match r.1 with
    | some target =>
      let pAgent := ops.getAgent (world self.mType).mpLayer id
      let added := Compartment.addAgent ops (world target) pAgent r.2
      let world1 := setMembers world target added.2
      let world2 := setMembers world1 self.mType
        (Compartment.removeAgent ops (world1 self.mType) pAgent)
      (added.1, world2, r.2)
    | none => (false, world, r.2)

/-- The body of the `switch` of `Compartment::moveRandom` for axis `i`: the
reflection of the coordinate at the violated edge. -/
def Compartment.reflectSwitch (self : Compartment) (i : Coodinate) (state : BoundState)
    (Location : Vec2 ℚ) : Vec2 ℚ :=
  match state with
  | BoundState.OUT_LOW =>
    Location.set i (self.mDimensions.origin.get i
      - self.mpSpaceBorders.distanceFromBorder Location i Side.LOW)
  | BoundState.OUT_HIGH =>
    Location.set i (self.mDimensions.origin.get i + self.mDimensions.extents.get i
      - self.mpSpaceBorders.distanceFromBorder Location i Side.HIGH)
  | BoundState.INBOUND => Location

/-- The location `Compartment::moveRandom` hands to the local move, from the
current location of the agent and the displacement drawn
(`radius * cos(angle)`, `radius * sin(angle)`). -/
def Compartment.moveRandomLocation (self : Compartment) (current : Vec2 ℚ)
    (dx dy : ℚ) : Vec2 ℚ :=
  let Location : Vec2 ℚ := ⟨current.x + dx, current.y + dy⟩
  let Location := self.mpSpaceBorders.transform Location
  let check := self.mpSpaceBorders.boundsCheck Location
  if ¬ check.1 then
    [Coodinate.X, Coodinate.Y].foldl
      (fun loc i => self.reflectSwitch i (check.2.get i) loc) Location
  else Location

/-- The function `Compartment::moveRandom(id, maxSpeed)`, on the displacement
drawn: the value returned by the local move and the new members. -/
def Compartment.moveRandom {L : Type} (ops : LayerOps L) (m : Members L)
    (self : Compartment) (id : Nat) (dx dy : ℚ) : Bool × Members L :=
  let current := ops.getLocation m.mpLayer id ⟨0, 0⟩
  let moved := ops.moveTo m.mpLayer id (self.moveRandomLocation current dx dy)
  (moved.1, m.withLayer moved.2)

/-- The function `Compartment::getAgents(pt, out)`. -/
def Compartment.getAgents {L : Type} (ops : LayerOps L) (m : Members L)
    (pt : Vec2 ℤ) (out : List Agent) : List Agent :=
  ops.getAgents m.mpLayer pt out

/-- The function `Compartment::getAgents(pt, types, out)`. -/
def Compartment.getAgentsOfTypes {L : Type} (ops : LayerOps L) (m : Members L)
    (pt : Vec2 ℤ) (types : Int) (out : List Agent) : List Agent :=
  ops.getAgentsOfTypes m.mpLayer pt types out

/-- The function `Compartment::getAgents(pt, xOffset, yOffset, out)`: the new
value of `out`. -/
def Compartment.getAgentsOffset {L : Type} (ops : LayerOps L)
    (INSTANCES : CompartmentType → Compartment) (world : CompartmentType → Members L)
    (self : Compartment) (pt : Vec2 ℤ) (xOffset yOffset : Int) (out : List Agent) :
    List Agent :=
  let Location : Vec2 ℤ := ⟨pt.x + xOffset, pt.y + yOffset⟩
  let r := self.transformGrid INSTANCES Location
  if r.1 = some self.mType then ops.getAgents (world self.mType).mpLayer pt out
  else
    match r.1 with
    | some target => Compartment.getAgents ops (world target) pt out
    | none => out

/-- The function `Compartment::getAgents(pt, xOffset, yOffset, types, out)`:
the new value of `out`. -/
def Compartment.getAgentsOffsetOfTypes {L : Type} (ops : LayerOps L)
    (INSTANCES : CompartmentType → Compartment) (world : CompartmentType → Members L)
    (self : Compartment) (pt : Vec2 ℤ) (xOffset yOffset : Int) (types : Int)
    (out : List Agent) : List Agent :=
  let Location : Vec2 ℤ := ⟨pt.x + xOffset, pt.y + yOffset⟩
  let r := self.transformGrid INSTANCES Location
  if r.1 = some self.mType then ops.getAgentsOfTypes (world self.mType).mpLayer pt types out
  else
    match r.1 with
    | some target => Compartment.getAgentsOfTypes ops (world target) pt types out
    | none => out

/-- The value of `(size_t) INVALID`: `INVALID` is the fifth enumerator. -/
def invalidRank : Nat := 4

/-- The function `Compartment::getRank(location)`, with `fuel` bounding the
depth of the calls on neighbouring compartments; `none` when the fuel runs out.
The value of the call on the neighbour is not returned by the source: it is
computed and dropped. -/
def Compartment.getRank {L : Type} (ops : LayerOps L)
    (INSTANCES : CompartmentType → Compartment) (world : CompartmentType → Members L) :
    Nat → Compartment → Vec2 ℤ → Option Nat
  | 0, _, _ => none
  | fuel + 1, self, location =>
    let r := self.transformGrid INSTANCES location
    if r.1 = some self.mType then some (ops.getRank (world self.mType).mpLayer r.2 0 0)
    else
      match r.1 with
      | some target =>
        match Compartment.getRank ops INSTANCES world fuel (INSTANCES target) r.2 with
        | none => none
        | some _ => some invalidRank
      | none => some invalidRank

/-- The function `Compartment::getRank(location, xOffset, yOffset)`. -/
def Compartment.getRankOffset {L : Type} (ops : LayerOps L)
    (INSTANCES : CompartmentType → Compartment) (world : CompartmentType → Members L)
    (fuel : Nat) (self : Compartment) (location : Vec2 ℤ) (xOffset yOffset : Int) :
    Option Nat :=
  Compartment.getRank ops INSTANCES world fuel self
    ⟨location.x + xOffset, location.y + yOffset⟩

/-! ## Fields: registration, initialisation and access -/

/-- The function `Compartment::getName()`. -/
def Compartment.getName (self : Compartment) : String := Names self.mType

/-- Modelled from the spec: the constructor `Cytokine(name)` followed by
`setIndex(index)`; the initial value of a field is configuration, read here
from `initialValue` at the qualified name. -/
def Cytokine.construct (initialValue : String → ℚ) (name : String) (index : Nat) : Cytokine :=
  ⟨name, index, initialValue name⟩

/-- The function `Compartment::addCytokine(name)`: the index returned and the
new members. -/
def Compartment.addCytokine {L : Type} (initialValue : String → ℚ) (self : Compartment)
    (m : Members L) (name : String) : Nat × Members L :=
  let pCytokine := Cytokine.construct initialValue (self.getName ++ "." ++ name)
    m.mCytokines.length
  (pCytokine.mIndex,
    { m with
      mCytokines := m.mCytokines ++ [pCytokine]
      mCytokineMap := mapInsert m.mCytokineMap name pCytokine.mIndex })

/-- The function `Compartment::getCytokine(name)`: `none` for `NULL`. An index
outside the field list, which the source would read past the end, is not told
apart from `NULL`. -/
def Compartment.getCytokine {L : Type} (m : Members L) (name : String) : Option Cytokine :=
  match mapFind m.mCytokineMap name with
  | some index => m.mCytokines.get? index
  | none => none

/-- The test `contains(pt)` of `repast::GridDimensions` on a grid point: every
coordinate lies in `[origin, origin + extents)`. -/
def GridDimensions.contains (d : GridDimensions) (pt : Vec2 ℤ) : Bool :=
  decide (d.origin.x ≤ (pt.x : ℚ) ∧ (pt.x : ℚ) < d.origin.x + d.extents.x
    ∧ d.origin.y ≤ (pt.y : ℚ) ∧ (pt.y : ℚ) < d.origin.y + d.extents.y)

/-- Modelled from the spec: the cells a grid iterator built on `dimensions`
yields through `next()`, all integer coordinates of the rectangle, X running
fastest. -/
def gridCells (d : GridDimensions) : List (Vec2 ℤ) :=
  (List.range (toInt d.extents.y).toNat).flatMap fun j =>
    (List.range (toInt d.extents.x).toNat).map fun i =>
      ⟨toInt d.origin.x + (i : ℤ), toInt d.origin.y + (j : ℤ)⟩

/-- What `Compartment::cytokineValues` produces: the vector found, the
exception `std::runtime_error("cytokine value not found")`, or undefined
behaviour (access through a `NULL` field layer). -/
inductive ValuesOutcome where
  | found (values : List ℚ)
  | notFound
  | undefined
  deriving DecidableEq, Repr

/-- The function `Compartment::cytokineValues(pt)`. -/
def Compartment.cytokineValues {L : Type} (ops : LayerOps L) (m : Members L)
    (pt : Vec2 ℤ) : ValuesOutcome :=
  if (ops.gridDimensions m.mpLayer).contains pt then
    match m.mpDiffuserValues with
    | some d => ValuesOutcome.found (d.get pt)
    | none => ValuesOutcome.undefined
  else
    match (ops.nonLocalValues m.mpLayer).findSome? (fun g => g.tryLocation pt) with
    | some v => ValuesOutcome.found v
    | none => ValuesOutcome.notFound

/-- What `Compartment::cytokineValue` produces: a reference to the slot `index`
of the vector `values` stored for the resolved coordinate, the exception
`std::runtime_error("cytokine value not found")`, the sentinel `NaN` of the
statements after the `throw`, undefined behaviour, or no result within the
fuel. -/
inductive ValueOutcome where
  | entry (values : List ℚ) (index : Nat)
  | notFound
  | nan
  | undefined
  | outOfFuel
  deriving DecidableEq, Repr

/-- The function `Compartment::cytokineValue(name, pt)`, with `fuel` bounding
the depth of the calls on neighbouring compartments: what it produces and the
new state of all compartments (`mCytokineMap[name]` may insert `name`). The
vector is looked up before the index, as in `E1[E2]`. -/
def Compartment.cytokineValue {L : Type} (ops : LayerOps L)
    (INSTANCES : CompartmentType → Compartment) :
    Nat → (CompartmentType → Members L) → Compartment → String → Vec2 ℤ →
      ValueOutcome × (CompartmentType → Members L)
  | 0, world, _, _, _ => (ValueOutcome.outOfFuel, world)
  | fuel + 1, world, self, name, pt =>
    let r := self.transformGrid INSTANCES pt
    if r.1 = some self.mType then
      match Compartment.cytokineValues ops (world self.mType) r.2 with
      | ValuesOutcome.found v =>
        let looked := mapIndex (world self.mType).mCytokineMap name
        (ValueOutcome.entry v looked.1,
          setMembers world self.mType { world self.mType with mCytokineMap := looked.2 })
      | ValuesOutcome.notFound => (ValueOutcome.notFound, world)
      | ValuesOutcome.undefined => (ValueOutcome.undefined, world)
    else
      match r.1 with
      | some target =>
        Compartment.cytokineValue ops INSTANCES fuel world (INSTANCES target) name r.2
      | none => (ValueOutcome.notFound, world)

/-- The function `Compartment::cytokineValue(name, pt, xOffset, yOffset)`. -/
def Compartment.cytokineValueOffset {L : Type} (ops : LayerOps L)
    (INSTANCES : CompartmentType → Compartment) (fuel : Nat)
    (world : CompartmentType → Members L) (self : Compartment) (name : String)
    (pt : Vec2 ℤ) (xOffset yOffset : Int) :
    ValueOutcome × (CompartmentType → Members L) :=
  Compartment.cytokineValue ops INSTANCES fuel world self name
    ⟨pt.x + xOffset, pt.y + yOffset⟩

/-- The first loop of `Compartment::initializeDiffuserData`: the initial value
of each field of the list is written through `itInitialValue`, which starts at
slot `k` of `InitialValues`. A write past the end of the vector is undefined
behaviour: `none`. -/
def writeInitialValues : List Cytokine → Nat → List ℚ → Option (List ℚ)
  | [], _, InitialValues => some InitialValues
  | c :: rest, k, InitialValues =>
    if k < InitialValues.length then
      writeInitialValues rest (k + 1) (InitialValues.set k c.mInitialValue)
    else none

/-- The function `Compartment::synchronizeDiffuser()`, on the members of the
compartment; `boundary` are the cells the grid borders select for the merge.
Merging into a `NULL` field layer is undefined behaviour: `none`. -/
def Compartment.synchronizeDiffuser {L : Type} (ops : LayerOps L) (m : Members L)
    (boundary : List (Vec2 ℤ)) : Option (Members L) :=
  let layer := ops.synchronizeDiffuser m.mpLayer
  match ops.nonLocalValues layer, m.mpDiffuserValues with
  | [], values => some { m with mpLayer := layer, mpDiffuserValues := values }
  | _ :: _, none => none
  | g :: rest, some d =>
    some { m with
      mpLayer := layer
      mpDiffuserValues :=
        some ((g :: rest).foldl (fun acc other => acc.updateBufferValues other boundary) d) }

/-- Modelled from the spec: the constructor of a field layer with `size` slots
per cell over the local grid `dimensions`: every vector holds `size` zeros. -/
def SharedValueLayer.construct (size : Nat) (dimensions : GridDimensions) : SharedValueLayer :=
  ⟨size, dimensions.contains, fun _ => List.replicate size 0, []⟩

/-- The function `Compartment::initializeDiffuserData()`, on the members of the
compartment; `none` stands for undefined behaviour. -/
def Compartment.initializeDiffuserData {L : Type} (ops : LayerOps L) (m : Members L)
    (boundary : List (Vec2 ℤ)) : Option (Members L) :=
  if m.mCytokineMap.length = 0 then some m
  else
    match m.mpDiffuserValues with
    | none =>
      let fresh := SharedValueLayer.construct m.mCytokineMap.length
        (ops.gridDimensions m.mpLayer)
      let layer := ops.addDiffuserValues m.mpLayer
      match writeInitialValues m.mCytokines 0 (List.replicate m.mCytokineMap.length 0) with
      | none => none
      | some InitialValues =>
        let seeded := (gridCells (ops.gridDimensions layer)).foldl
          (fun acc cell => acc.assign cell InitialValues) fresh
        Compartment.synchronizeDiffuser ops
          { m with mpLayer := layer, mpDiffuserValues := some seeded } boundary
    | some _ => Compartment.synchronizeDiffuser ops m boundary

/-- A sequence of calls of `Compartment::addCytokine`, one per name: the
indices returned, in call order, and the final members. -/
def Compartment.addCytokines {L : Type} (initialValue : String → ℚ) (self : Compartment) :
    Members L → List String → List Nat × Members L
  | m, [] => ([], m)
  | m, name :: rest =>
    ((Compartment.addCytokine initialValue self m name).1
        :: (Compartment.addCytokines initialValue self
              (Compartment.addCytokine initialValue self m name).2 rest).1,
      (Compartment.addCytokines initialValue self
        (Compartment.addCytokine initialValue self m name).2 rest).2)

/-! ## Example configurations -/

/-- An example configuration with cell size `gridSize`: the four compartments
stacked along the Y axis, lumen (10 by 10) below epithilium (10 by 4) below
lamina propria (7 by 5) below the gastric lymph node (7 by 5). -/
def exampleConfig (gridSize : ℚ) : CompartmentType → Config
  | CompartmentType.lumen =>
    ⟨10, 10, gridSize, CompartmentType.INVALID, BorderType.IMPERMIABLE,
      CompartmentType.epithilium, BorderType.PERMIABLE⟩
  | CompartmentType.epithilium =>
    ⟨10, 4, gridSize, CompartmentType.lumen, BorderType.PERMIABLE,
      CompartmentType.lamina_propria, BorderType.PERMIABLE⟩
  | CompartmentType.lamina_propria =>
    ⟨7, 5, gridSize, CompartmentType.epithilium, BorderType.PERMIABLE,
      CompartmentType.gastric_lymph_node, BorderType.PERMIABLE⟩
  | _ =>
    ⟨7, 5, gridSize, CompartmentType.lamina_propria, BorderType.PERMIABLE,
      CompartmentType.INVALID, BorderType.IMPERMIABLE⟩

/-- The table of singletons the constructor builds from `exampleConfig`. -/
def exampleInstances (gridSize : ℚ) (type : CompartmentType) : Compartment :=
  Compartment.construct type (exampleConfig gridSize type) BorderType.PERMIABLE

/-- The epithilium of `exampleInstances 1` with an adjacency table that also
names neighbours on the X axis (lamina propria on the low side, the gastric
lymph node on the high side). The constructor never builds such a table; the
compartment serves the statements made for every adjacency table. -/
def exampleCorner : Compartment :=
  { exampleInstances 1 CompartmentType.epithilium with
    mAdjacentCompartments := fun i s =>
      match i, s with
      | Coodinate.X, Side.LOW => CompartmentType.lamina_propria
      | Coodinate.X, Side.HIGH => CompartmentType.gastric_lymph_node
      | Coodinate.Y, Side.LOW => CompartmentType.lumen
      | Coodinate.Y, Side.HIGH => CompartmentType.lamina_propria }

/-! ## Example layers -/

/-- Modelled from the spec: a minimal layer for the examples. It keeps the
local agents with their continuous location, the dimensions of the local grid
partition, the rank that owns the cells of the compartment, and the ghost
snapshots it knows. -/
structure ExampleLayer where
  agents : List (Agent × Vec2 ℚ)
  grid : GridDimensions
  rank : Nat
  nonLocal : List SharedValueLayer

/-- Modelled from the spec: the operations of the minimal layer. An agent sits
in the grid cell that contains its location (cell size 1); adding a non-null
agent and moving a known agent succeed. -/
def exampleOps : LayerOps ExampleLayer where
  getAgent l id := (l.agents.find? (fun a => a.1.id = id)).map (fun a => a.1)
  addAgent l agent pt :=
    match agent with
    | none => (false, l)
    | some a => (true, { l with agents := l.agents ++ [(a, pt)] })
  removeAgent l agent :=
    match agent with
    | none => l
    | some a => { l with agents := l.agents.filter (fun b => b.1.id ≠ a.id) }
  moveTo l id pt :=
    if l.agents.any (fun a => a.1.id = id) then
      (true, { l with agents := l.agents.map (fun a => if a.1.id = id then (a.1, pt) else a) })
    else (false, l)
  getLocation l id Location :=
    match l.agents.find? (fun a => a.1.id = id) with
    | some a => a.2
    | none => Location
  getAgents l pt out :=
    out ++ (l.agents.filter (fun a => (⟨⌊a.2.x⌋, ⌊a.2.y⌋⟩ : Vec2 ℤ) = pt)).map (fun a => a.1)
  getAgentsOfTypes l pt types out :=
    out ++ (l.agents.filter
      (fun a => (⟨⌊a.2.x⌋, ⌊a.2.y⌋⟩ : Vec2 ℤ) = pt ∧ a.1.type = types)).map (fun a => a.1)
  getRank l _ _ _ := l.rank
  gridDimensions l := l.grid
  nonLocalValues l := l.nonLocal
  addDiffuserValues l := l
  synchronizeDiffuser l := l

/-- An example state: every compartment on a rank of its own, with a local
partition of two cells; the lumen holds agent 7 at (5, 9.6) and agent 8 at
(3.5, 2.5); no field is registered. -/
def exampleWorld : CompartmentType → Members ExampleLayer
  | CompartmentType.lumen =>
    ⟨⟨[(⟨7, 1⟩, ⟨5, 48 / 5⟩), (⟨8, 1⟩, ⟨7 / 2, 5 / 2⟩)], ⟨⟨0, 0⟩, ⟨2, 1⟩⟩, 0, []⟩, [], [], none⟩
  | CompartmentType.epithilium => ⟨⟨[], ⟨⟨0, 0⟩, ⟨2, 1⟩⟩, 1, []⟩, [], [], none⟩
  | CompartmentType.lamina_propria => ⟨⟨[], ⟨⟨0, 0⟩, ⟨2, 1⟩⟩, 2, []⟩, [], [], none⟩
  | _ => ⟨⟨[], ⟨⟨0, 0⟩, ⟨2, 1⟩⟩, 3, []⟩, [], [], none⟩

/-- The initial values of the example: 3 for the field `lumen.IL6`, 5 for any
other. -/
def exampleInitialValue (name : String) : ℚ := if name = "lumen.IL6" then 3 else 5

/-- The example lumen after `addCytokine("IL6")`. -/
def exampleRegistered : Members ExampleLayer :=
  (Compartment.addCytokine exampleInitialValue (exampleInstances 1 CompartmentType.lumen)
    (exampleWorld CompartmentType.lumen) "IL6").2

/-- The example lumen after `addCytokine("IL6")` called twice. -/
def exampleRegisteredTwice : Members ExampleLayer :=
  (Compartment.addCytokine exampleInitialValue (exampleInstances 1 CompartmentType.lumen)
    exampleRegistered "IL6").2

/-- The example state after `addCytokine("IL6")` and `initializeDiffuserData()`
on the lumen. -/
def exampleFieldWorld : CompartmentType → Members ExampleLayer :=
  match Compartment.initializeDiffuserData exampleOps exampleRegistered [] with
  | some m => setMembers exampleWorld CompartmentType.lumen m
  | none => exampleWorld

/-! ## Partition sizing: proofs -/

/-- The product `LocalCount * worldSize` of the source never exceeds
`globalCount`, so neither the multiplication nor the subtraction wraps. -/
theorem mulSize_div_eq (worldSize globalCount : Nat) (hg : globalCount < sizeMod) :
    mulSize (globalCount / worldSize) worldSize = globalCount / worldSize * worldSize := by
  have h := Nat.div_mul_le_self globalCount worldSize
  unfold mulSize
  exact Nat.mod_eq_of_lt (lt_of_le_of_lt h hg)

/-- The wrapped difference of the source is the remainder of the division. -/
theorem subSize_div_eq (worldSize globalCount : Nat) (hg : globalCount < sizeMod) :
    subSize globalCount (mulSize (globalCount / worldSize) worldSize)
      = globalCount % worldSize := by
  rw [mulSize_div_eq worldSize globalCount hg]
  have h := Nat.div_mul_le_self globalCount worldSize
  have hm := Nat.div_add_mod globalCount worldSize
  have hc : worldSize * (globalCount / worldSize) = globalCount / worldSize * worldSize :=
    Nat.mul_comm _ _
  have hlt : globalCount / worldSize * worldSize < sizeMod := lt_of_le_of_lt h hg
  unfold subSize
  rw [Nat.mod_eq_of_lt hlt]
  have hr : globalCount % worldSize ≤ globalCount := Nat.mod_le _ _
  have e : globalCount + sizeMod - globalCount / worldSize * worldSize
      = sizeMod + globalCount % worldSize := by omega
  rw [e, Nat.add_mod_left]
  exact Nat.mod_eq_of_lt (lt_of_le_of_lt hr hg)

/-- Closed form of `localCount`: the quotient, plus one for the ranks below
the remainder. -/
theorem localCount_closed (rank worldSize globalCount : Nat)
    (hw : 1 ≤ worldSize) (hg : globalCount < sizeMod) :
    localCount rank worldSize globalCount
      = globalCount / worldSize + (if rank < globalCount % worldSize then 1 else 0) := by
  unfold localCount
  simp only [subSize_div_eq worldSize globalCount hg]
  by_cases hr : rank < globalCount % worldSize
  · simp only [hr, if_true]
    unfold incSize
    apply Nat.mod_eq_of_lt
    have hm := Nat.div_add_mod globalCount worldSize
    have hq : globalCount / worldSize ≤ globalCount := Nat.div_le_self _ _
    by_contra hcon
    have hq2 : globalCount / worldSize = globalCount := by omega
    rcases Nat.eq_or_lt_of_le hw with h1 | h1
    · rw [← h1, Nat.mod_one] at hr
      exact Nat.not_lt_zero _ hr
    · have hpos : 0 < globalCount := by omega
      have := Nat.div_lt_self hpos h1
      omega
  · simp only [hr, if_false, Nat.add_zero]

/-- Counting the ranks below a bound `m ≤ w` among `0 .. w - 1` gives `m`. -/
theorem sum_range_indicator (m : Nat) :
    ∀ w : Nat, m ≤ w →
      ((List.range w).map (fun r => if r < m then 1 else 0)).sum = m := by
  intro w
  induction w with
  | zero =>
    intro h
    have : m = 0 := Nat.le_zero.mp h
    simp [this]
  | succ n ih =>
    intro h
    rw [List.range_succ, List.map_append, List.sum_append]
    rcases Nat.eq_or_lt_of_le h with h1 | h1
    · have hn : n < m := by omega
      have hall : (List.range n).map (fun r => if r < m then 1 else 0)
          = (List.range n).map (fun _ => 1) := by
        apply List.map_congr_left
        intro r hr
        have : r < n := List.mem_range.mp hr
        have : r < m := by omega
        simp [this]
      rw [hall]
      simp [hn]
      omega
    · have hn : ¬ n < m := by omega
      have := ih (by omega)
      simp [hn, this]

/-- C1: for every `globalCount` (a `size_t`) and every `worldSize ≥ 1`, the sum
of `localCount globalCount` over the ranks `0 .. worldSize - 1` is exactly
`globalCount`; the product `LocalCount * worldSize` does not exceed
`globalCount`, so the unsigned product and difference of the source are the
exact ones (no wrap). -/
theorem C1_localCount_sum (worldSize globalCount : Nat)
    (hw : 1 ≤ worldSize) (hg : globalCount < sizeMod) :
    totalCount worldSize globalCount = globalCount
      ∧ globalCount / worldSize * worldSize ≤ globalCount
      ∧ mulSize (globalCount / worldSize) worldSize = globalCount / worldSize * worldSize
      ∧ subSize globalCount (mulSize (globalCount / worldSize) worldSize)
          = globalCount - globalCount / worldSize * worldSize := by
  have hle := Nat.div_mul_le_self globalCount worldSize
  have hm := Nat.div_add_mod globalCount worldSize
  have hc : worldSize * (globalCount / worldSize) = globalCount / worldSize * worldSize :=
    Nat.mul_comm _ _
  refine ⟨?_, hle, mulSize_div_eq worldSize globalCount hg, ?_⟩
  · unfold totalCount
    have hmap : (List.range worldSize).map (fun rank => localCount rank worldSize globalCount)
        = (List.range worldSize).map
            (fun rank => globalCount / worldSize
              + (if rank < globalCount % worldSize then 1 else 0)) := by
      apply List.map_congr_left
      intro r _
      exact localCount_closed r worldSize globalCount hw hg
    rw [hmap, List.sum_map_add]
    have hrem : globalCount % worldSize ≤ worldSize :=
      Nat.le_of_lt (Nat.mod_lt _ (by omega))
    rw [sum_range_indicator (globalCount % worldSize) worldSize hrem]
    simp only [List.map_const', List.sum_replicate, List.length_range, smul_eq_mul]
    omega
  · rw [subSize_div_eq worldSize globalCount hg]
    omega

/-- Witness of C1: seven processes sharing one hundred units. -/
theorem C1_localCount_sum_witness :
    totalCount 7 100 = 100
      ∧ 100 / 7 * 7 ≤ 100
      ∧ mulSize (100 / 7) 7 = 100 / 7 * 7
      ∧ subSize 100 (mulSize (100 / 7) 7) = 100 - 100 / 7 * 7 :=
  C1_localCount_sum 7 100 (by decide) (by decide)

/-- C2: for every `globalCount` (a `size_t`), `worldSize ≥ 1` and ranks `r`,
`r2` (below `worldSize` or not), `localCount` is the quotient plus one when `r` is below the
remainder and the quotient otherwise; hence the shares of two ranks differ by
at most one. -/
theorem C2_localCount_share (worldSize globalCount r r2 : Nat)
    (hw : 1 ≤ worldSize) (hg : globalCount < sizeMod) :
    (r < globalCount % worldSize →
        localCount r worldSize globalCount = globalCount / worldSize + 1)
      ∧ (¬ r < globalCount % worldSize →
        localCount r worldSize globalCount = globalCount / worldSize)
      ∧ localCount r worldSize globalCount ≤ localCount r2 worldSize globalCount + 1
      ∧ localCount r2 worldSize globalCount ≤ localCount r worldSize globalCount + 1 := by
  have h1 := localCount_closed r worldSize globalCount hw hg
  have h2 := localCount_closed r2 worldSize globalCount hw hg
  refine ⟨?_, ?_, ?_, ?_⟩
  · intro h
    rw [h1, if_pos h]
  · intro h
    rw [h1, if_neg h, Nat.add_zero]
  · rw [h1, h2]
    split_ifs <;> omega
  · rw [h1, h2]
    split_ifs <;> omega

/-- Witness of C2: ranks 1 and 5 of seven processes sharing one hundred
units. -/
theorem C2_localCount_share_witness :
    (1 < 100 % 7 → localCount 1 7 100 = 100 / 7 + 1)
      ∧ (¬ 1 < 100 % 7 → localCount 1 7 100 = 100 / 7)
      ∧ localCount 1 7 100 ≤ localCount 5 7 100 + 1
      ∧ localCount 5 7 100 ≤ localCount 1 7 100 + 1 :=
  C2_localCount_share 7 100 1 5 (by decide) (by decide)

/-- The constructor builds both `Borders` on the dimensions it stores: the
space borders on `mDimensions`, the grid borders on the grid dimensions, and
both with origin zero. -/
theorem construct_borders_dimensions (type : CompartmentType) (cfg : Config)
    (defaultType : BorderType) :
    (Compartment.construct type cfg defaultType).mpSpaceBorders.mDimensions
        = (Compartment.construct type cfg defaultType).mDimensions
      ∧ (Compartment.construct type cfg defaultType).mDimensions.origin = ⟨0, 0⟩
      ∧ (Compartment.construct type cfg defaultType).mpGridBorders.mDimensions.origin = ⟨0, 0⟩ :=
  ⟨rfl, rfl, rfl⟩

/-- C3: for configured space extents `s ≥ 0` and cell size `c > 0`, the
constructor sets on each axis `gridExtent = ⌈s / c⌉` and then
`spaceExtent = gridExtent * c`, both in `mProperties` and in the dimensions
handed to the space and grid borders; the space extent so obtained is the
configured one rounded up to whole cells (`s ≤ spaceExtent < s + c`). -/
theorem C3_grid_space_consistency (type : CompartmentType) (cfg : Config)
    (defaultType : BorderType)
    (hx : 0 ≤ cfg.spaceX) (hy : 0 ≤ cfg.spaceY) (hc : 0 < cfg.gridSize) :
    (Compartment.construct type cfg defaultType).mProperties.gridX
        = ((⌈cfg.spaceX / cfg.gridSize⌉ : ℤ) : ℚ)
      ∧ (Compartment.construct type cfg defaultType).mProperties.gridY
        = ((⌈cfg.spaceY / cfg.gridSize⌉ : ℤ) : ℚ)
      ∧ (Compartment.construct type cfg defaultType).mProperties.spaceX
        = (Compartment.construct type cfg defaultType).mProperties.gridX * cfg.gridSize
      ∧ (Compartment.construct type cfg defaultType).mProperties.spaceY
        = (Compartment.construct type cfg defaultType).mProperties.gridY * cfg.gridSize
      ∧ (Compartment.construct type cfg defaultType).mpGridBorders.mDimensions.extents
        = ⟨((⌈cfg.spaceX / cfg.gridSize⌉ : ℤ) : ℚ), ((⌈cfg.spaceY / cfg.gridSize⌉ : ℤ) : ℚ)⟩
      ∧ (∀ i : Coodinate,
          (Compartment.construct type cfg defaultType).dimensions.extents.get i
            = (Compartment.construct type cfg defaultType).mpGridBorders.mDimensions.extents.get i
                * cfg.gridSize)
      ∧ (0 ≤ (Compartment.construct type cfg defaultType).mProperties.gridX
          ∧ 0 ≤ (Compartment.construct type cfg defaultType).mProperties.gridY)
      ∧ (cfg.spaceX ≤ (Compartment.construct type cfg defaultType).mProperties.spaceX
          ∧ (Compartment.construct type cfg defaultType).mProperties.spaceX
              < cfg.spaceX + cfg.gridSize)
      ∧ (cfg.spaceY ≤ (Compartment.construct type cfg defaultType).mProperties.spaceY
          ∧ (Compartment.construct type cfg defaultType).mProperties.spaceY
              < cfg.spaceY + cfg.gridSize) := by
  have key : ∀ s : ℚ, 0 ≤ s →
      (0 : ℚ) ≤ ((⌈s / cfg.gridSize⌉ : ℤ) : ℚ)
        ∧ s ≤ ((⌈s / cfg.gridSize⌉ : ℤ) : ℚ) * cfg.gridSize
        ∧ ((⌈s / cfg.gridSize⌉ : ℤ) : ℚ) * cfg.gridSize < s + cfg.gridSize := by
    intro s hs
    have h1 : s / cfg.gridSize ≤ ((⌈s / cfg.gridSize⌉ : ℤ) : ℚ) := Int.le_ceil _
    have h2 : ((⌈s / cfg.gridSize⌉ : ℤ) : ℚ) < s / cfg.gridSize + 1 := Int.ceil_lt_add_one _
    have h0 : (0 : ℚ) ≤ s / cfg.gridSize := div_nonneg hs (le_of_lt hc)
    refine ⟨le_trans h0 h1, ?_, ?_⟩
    · exact (div_le_iff₀ hc).mp h1
    · have h3 := mul_lt_mul_of_pos_right h2 hc
      have h4 : (s / cfg.gridSize + 1) * cfg.gridSize = s + cfg.gridSize := by
        field_simp
      rw [h4] at h3
      exact h3
  obtain ⟨kx0, kx1, kx2⟩ := key cfg.spaceX hx
  obtain ⟨ky0, ky1, ky2⟩ := key cfg.spaceY hy
  refine ⟨rfl, rfl, rfl, rfl, rfl, ?_, ⟨kx0, ky0⟩, ⟨kx1, kx2⟩, ⟨ky1, ky2⟩⟩
  intro i
  cases i <;> rfl

/-- Witness of C3: the lamina propria of the example configuration, a
configured space of 7 by 5 with cells of size 2, gets a grid of 4 by 3 cells
and a space of 8 by 6. -/
theorem C3_grid_space_consistency_witness :
    (exampleInstances 2 CompartmentType.lamina_propria).mProperties.gridX = 4
      ∧ (exampleInstances 2 CompartmentType.lamina_propria).mProperties.gridY = 3
      ∧ (exampleInstances 2 CompartmentType.lamina_propria).mProperties.spaceX = 4 * 2
      ∧ (7 : ℚ) ≤ (exampleInstances 2 CompartmentType.lamina_propria).mProperties.spaceX := by
  have h := C3_grid_space_consistency CompartmentType.lamina_propria
    (exampleConfig 2 CompartmentType.lamina_propria) BorderType.PERMIABLE
    (by norm_num [exampleConfig]) (by norm_num [exampleConfig]) (by norm_num [exampleConfig])
  have c7 : (⌈(7 : ℚ) / 2⌉ : ℤ) = 4 := by
    rw [Int.ceil_eq_iff]
    norm_num
  have c5 : (⌈(5 : ℚ) / 2⌉ : ℤ) = 3 := by
    rw [Int.ceil_eq_iff]
    norm_num
  obtain ⟨h1, h2, h3, -, -, -, -, h8, -⟩ := h
  have e1 : (exampleInstances 2 CompartmentType.lamina_propria).mProperties.gridX = 4 := by
    unfold exampleInstances
    rw [h1]
    simp only [exampleConfig]
    rw [c7]
    norm_num
  have e2 : (exampleInstances 2 CompartmentType.lamina_propria).mProperties.gridY = 3 := by
    unfold exampleInstances
    rw [h2]
    simp only [exampleConfig]
    rw [c5]
    norm_num
  refine ⟨e1, e2, ?_, h8.1⟩
  have e3 : (exampleInstances 2 CompartmentType.lamina_propria).mProperties.spaceX
      = (exampleInstances 2 CompartmentType.lamina_propria).mProperties.gridX * 2 := h3
  rw [e3, e1]

/-! ## Coordinate transform: proofs -/

/-- The classification of `boundsCheck` is "inside" exactly when every
coordinate lies in `[origin, origin + extent)`. -/
theorem boundsCheck_inside_iff (b : Borders) (pt : Vec2 ℚ) :
    (b.boundsCheck pt).1 = true ↔
      ∀ i : Coodinate, b.mDimensions.origin.get i ≤ pt.get i
        ∧ pt.get i < b.mDimensions.origin.get i + b.mDimensions.extents.get i := by
  constructor
  · intro h i
    simp only [Borders.boundsCheck, Borders.boundState, decide_eq_true_eq] at h
    obtain ⟨hx, hy⟩ := h
    cases i
    · simp only [Vec2.get] at hx ⊢
      split_ifs at hx with h1 h2
      exact ⟨not_lt.mp h1, h2⟩
    · simp only [Vec2.get] at hy ⊢
      split_ifs at hy with h1 h2
      exact ⟨not_lt.mp h1, h2⟩
  · intro h
    have hx := h Coodinate.X
    have hy := h Coodinate.Y
    simp only [Vec2.get] at hx hy
    simp only [Borders.boundsCheck, Borders.boundState, decide_eq_true_eq, Vec2.get]
    rw [if_neg (not_lt.mpr hx.1), if_pos hx.2, if_neg (not_lt.mpr hy.1), if_pos hy.2]
    exact ⟨rfl, rfl⟩

/-- A point inside the space borders is returned as it is, with `this`. -/
theorem transform_inside (INSTANCES : CompartmentType → Compartment) (C : Compartment)
    (pt : Vec2 ℚ) (h : (C.mpSpaceBorders.boundsCheck pt).1 = true) :
    C.transform INSTANCES pt = (some C.mType, pt) := by
  simp [Compartment.transform, Borders.transform, h]

/-- A grid point inside the grid borders is returned as it is, with `this`. -/
theorem transformGrid_inside (INSTANCES : CompartmentType → Compartment) (C : Compartment)
    (pt : Vec2 ℤ) (h : (C.mpGridBorders.boundsCheckGrid pt).1 = true) :
    C.transformGrid INSTANCES pt = (some C.mType, pt) := by
  simp [Compartment.transformGrid, Borders.transform, h]

/-- One round of the loop of the continuous transform, on any state. -/
theorem transformLoop_cons (INSTANCES : CompartmentType → Compartment) (C : Compartment)
    (boundState : Vec2 BoundState) (i : Coodinate) (rest : List Coodinate)
    (st : Option CompartmentType × Vec2 ℚ) :
    Compartment.transformLoop INSTANCES C boundState (i :: rest) st
      = if st.1 = none then
          Compartment.transformLoop INSTANCES C boundState rest
            (C.transformSwitch INSTANCES i (boundState.get i) st.2)
        else st := by
  obtain ⟨t, q⟩ := st
  rfl

/-- The loop of the continuous transform with no axis left. -/
theorem transformLoop_nil (INSTANCES : CompartmentType → Compartment) (C : Compartment)
    (boundState : Vec2 BoundState) (st : Option CompartmentType × Vec2 ℚ) :
    Compartment.transformLoop INSTANCES C boundState [] st = st := by
  obtain ⟨t, q⟩ := st
  rfl

/-- One round of the loop of the grid transform, on any state. -/
theorem transformGridLoop_cons (INSTANCES : CompartmentType → Compartment) (C : Compartment)
    (boundState : Vec2 BoundState) (i : Coodinate) (rest : List Coodinate)
    (st : Option CompartmentType × Vec2 ℤ) :
    Compartment.transformGridLoop INSTANCES C boundState (i :: rest) st
      = if st.1 ≠ none then
          Compartment.transformGridLoop INSTANCES C boundState rest st
        else
          Compartment.transformGridLoop INSTANCES C boundState rest
            (C.transformGridSwitch INSTANCES i (boundState.get i) st.2) := by
  obtain ⟨t, q⟩ := st
  rfl

/-- The loop of the grid transform with no axis left. -/
theorem transformGridLoop_nil (INSTANCES : CompartmentType → Compartment) (C : Compartment)
    (boundState : Vec2 BoundState) (st : Option CompartmentType × Vec2 ℤ) :
    Compartment.transformGridLoop INSTANCES C boundState [] st = st := by
  obtain ⟨t, q⟩ := st
  rfl

/-- Outside the space borders the result is that of the `switch` on X when it
finds a target, and that of the `switch` on Y otherwise. -/
theorem transform_outside (INSTANCES : CompartmentType → Compartment) (C : Compartment)
    (pt : Vec2 ℚ) (h : (C.mpSpaceBorders.boundsCheck pt).1 = false) :
    C.transform INSTANCES pt
      = if (C.transformSwitch INSTANCES Coodinate.X
              ((C.mpSpaceBorders.boundsCheck pt).2.get Coodinate.X) pt).1 = none
        then C.transformSwitch INSTANCES Coodinate.Y
              ((C.mpSpaceBorders.boundsCheck pt).2.get Coodinate.Y)
              (C.transformSwitch INSTANCES Coodinate.X
                ((C.mpSpaceBorders.boundsCheck pt).2.get Coodinate.X) pt).2
        else C.transformSwitch INSTANCES Coodinate.X
              ((C.mpSpaceBorders.boundsCheck pt).2.get Coodinate.X) pt := by
  unfold Compartment.transform
  simp only [Borders.transform, h, Bool.false_eq_true, if_false, transformLoop_cons,
    transformLoop_nil, if_true]

/-- Outside the grid borders the result is that of the `switch` on X when it
finds a target, and that of the `switch` on Y otherwise. -/
theorem transformGrid_outside (INSTANCES : CompartmentType → Compartment) (C : Compartment)
    (pt : Vec2 ℤ) (h : (C.mpGridBorders.boundsCheckGrid pt).1 = false) :
    C.transformGrid INSTANCES pt
      = if (C.transformGridSwitch INSTANCES Coodinate.X
              ((C.mpGridBorders.boundsCheckGrid pt).2.get Coodinate.X) pt).1 = none
        then C.transformGridSwitch INSTANCES Coodinate.Y
              ((C.mpGridBorders.boundsCheckGrid pt).2.get Coodinate.Y)
              (C.transformGridSwitch INSTANCES Coodinate.X
                ((C.mpGridBorders.boundsCheckGrid pt).2.get Coodinate.X) pt).2
        else C.transformGridSwitch INSTANCES Coodinate.X
              ((C.mpGridBorders.boundsCheckGrid pt).2.get Coodinate.X) pt := by
  unfold Compartment.transformGrid
  simp only [Borders.transform, h, Bool.false_eq_true, if_false, transformGridLoop_cons,
    transformGridLoop_nil, ne_eq, not_true_eq_false]
  split_ifs <;> rfl

/-- C4: a point that `boundsCheck` classifies as inside (on both axes
`origin ≤ coord < origin + extent`) is returned unchanged by `transform`, with
this same compartment as target, in the continuous and in the grid variant,
for every adjacency table and every table of singletons. -/
theorem C4_transform_inside_unchanged (INSTANCES : CompartmentType → Compartment)
    (C : Compartment) (pt : Vec2 ℚ) (gpt : Vec2 ℤ) :
    ((C.mpSpaceBorders.boundsCheck pt).1 = true →
        C.transform INSTANCES pt = (some C.mType, pt))
      ∧ ((C.mpGridBorders.boundsCheckGrid gpt).1 = true →
        C.transformGrid INSTANCES gpt = (some C.mType, gpt))
      ∧ ((C.mpSpaceBorders.boundsCheck pt).1 = true ↔
          ∀ i : Coodinate, C.mpSpaceBorders.mDimensions.origin.get i ≤ pt.get i
            ∧ pt.get i < C.mpSpaceBorders.mDimensions.origin.get i
                + C.mpSpaceBorders.mDimensions.extents.get i)
      ∧ ((C.mpGridBorders.boundsCheckGrid gpt).1 = true ↔
          ∀ i : Coodinate, C.mpGridBorders.mDimensions.origin.get i ≤ ((gpt.get i : ℤ) : ℚ)
            ∧ ((gpt.get i : ℤ) : ℚ) < C.mpGridBorders.mDimensions.origin.get i
                + C.mpGridBorders.mDimensions.extents.get i) := by
  refine ⟨transform_inside INSTANCES C pt, transformGrid_inside INSTANCES C gpt,
    boundsCheck_inside_iff _ pt, ?_⟩
  unfold Borders.boundsCheckGrid
  rw [boundsCheck_inside_iff]
  constructor
  · intro h i
    have := h i
    cases i <;> exact this
  · intro h i
    have := h i
    cases i <;> exact this

/-- Witness of C4: in the compartment with neighbours on all four edges, the
point (5, 2) and the grid cell (9, 3) stay where they are. -/
theorem C4_transform_inside_unchanged_witness :
    exampleCorner.transform (exampleInstances 1) ⟨5, 2⟩
        = (some CompartmentType.epithilium, ⟨5, 2⟩)
      ∧ exampleCorner.transformGrid (exampleInstances 1) ⟨9, 3⟩
        = (some CompartmentType.epithilium, ⟨9, 3⟩) := by
  have h := C4_transform_inside_unchanged (exampleInstances 1) exampleCorner ⟨5, 2⟩ ⟨9, 3⟩
  constructor
  · refine h.1 ?_
    norm_num [exampleCorner, exampleInstances, exampleConfig, Compartment.construct,
      Borders.construct, Borders.setBorderType, Borders.boundsCheck, Borders.boundState,
      Vec2.get]
  · refine h.2.1 ?_
    norm_num [exampleCorner, exampleInstances, exampleConfig, Compartment.construct,
      Borders.construct, Borders.setBorderType, Borders.boundsCheckGrid, Borders.boundsCheck,
      Borders.boundState, Vec2.get]

/-- One round of the loop of the rounded transform, on any state. -/
theorem transformLoopRounded_cons (fl : ℚ → ℚ) (INSTANCES : CompartmentType → Compartment)
    (C : Compartment) (boundState : Vec2 BoundState) (i : Coodinate) (rest : List Coodinate)
    (st : Option CompartmentType × Vec2 ℚ) :
    Compartment.transformLoopRounded fl INSTANCES C boundState (i :: rest) st
      = if st.1 = none then
          Compartment.transformLoopRounded fl INSTANCES C boundState rest
            (C.transformSwitchRounded fl INSTANCES i (boundState.get i) st.2)
        else st := by
  obtain ⟨t, q⟩ := st
  rfl

/-- The loop of the rounded transform with no axis left. -/
theorem transformLoopRounded_nil (fl : ℚ → ℚ) (INSTANCES : CompartmentType → Compartment)
    (C : Compartment) (boundState : Vec2 BoundState) (st : Option CompartmentType × Vec2 ℚ) :
    Compartment.transformLoopRounded fl INSTANCES C boundState [] st = st := by
  obtain ⟨t, q⟩ := st
  rfl

/-- With exact arithmetic (nothing rounded) the rounded transform is the
transform. -/
theorem transformRounded_exact (INSTANCES : CompartmentType → Compartment) (C : Compartment)
    (pt : Vec2 ℚ) :
    C.transformRounded (fun q => q) INSTANCES pt = C.transform INSTANCES pt := by
  have hs : ∀ (i : Coodinate) (state : BoundState) (p : Vec2 ℚ),
      C.transformSwitchRounded (fun q => q) INSTANCES i state p
        = C.transformSwitch INSTANCES i state p := by
    intro i state p
    cases state <;> rfl
  unfold Compartment.transformRounded Compartment.transform
  simp only [transformLoopRounded_cons, transformLoopRounded_nil, transformLoop_cons,
    transformLoop_nil, hs]

/-- With no neighbour on the violated edge, the `switch` of the continuous
transform finds no target and leaves the point as it is. -/
theorem transformSwitch_invalid (INSTANCES : CompartmentType → Compartment) (C : Compartment)
    (i : Coodinate) (state : BoundState) (pt : Vec2 ℚ)
    (hlow : state = BoundState.OUT_LOW →
      C.mAdjacentCompartments i Side.LOW = CompartmentType.INVALID)
    (hhigh : state = BoundState.OUT_HIGH →
      C.mAdjacentCompartments i Side.HIGH = CompartmentType.INVALID) :
    C.transformSwitch INSTANCES i state pt = (none, pt) := by
  cases state
  · simp [Compartment.transformSwitch, hlow rfl]
  · rfl
  · simp [Compartment.transformSwitch, hhigh rfl]

/-- With no neighbour on the violated edge, the `switch` of the grid transform
finds no target and leaves the point as it is. -/
theorem transformGridSwitch_invalid (INSTANCES : CompartmentType → Compartment)
    (C : Compartment) (i : Coodinate) (state : BoundState) (pt : Vec2 ℤ)
    (hlow : state = BoundState.OUT_LOW →
      C.mAdjacentCompartments i Side.LOW = CompartmentType.INVALID)
    (hhigh : state = BoundState.OUT_HIGH →
      C.mAdjacentCompartments i Side.HIGH = CompartmentType.INVALID) :
    C.transformGridSwitch INSTANCES i state pt = (none, pt) := by
  cases state
  · simp [Compartment.transformGridSwitch, hlow rfl]
  · rfl
  · simp [Compartment.transformGridSwitch, hhigh rfl]

/-- C6: for an out-of-bounds point each of whose out-of-bounds axes has
adjacency `INVALID` on the violated side, `transform` returns null and leaves
every coordinate unchanged, in the continuous and in the grid variant. -/
theorem C6_no_neighbour_gives_null (INSTANCES : CompartmentType → Compartment)
    (C : Compartment) (pt : Vec2 ℚ) (gpt : Vec2 ℤ) :
    ((C.mpSpaceBorders.boundsCheck pt).1 = false →
        (∀ i : Coodinate,
          ((C.mpSpaceBorders.boundsCheck pt).2.get i = BoundState.OUT_LOW →
              C.mAdjacentCompartments i Side.LOW = CompartmentType.INVALID)
            ∧ ((C.mpSpaceBorders.boundsCheck pt).2.get i = BoundState.OUT_HIGH →
              C.mAdjacentCompartments i Side.HIGH = CompartmentType.INVALID)) →
        C.transform INSTANCES pt = (none, pt))
      ∧ ((C.mpGridBorders.boundsCheckGrid gpt).1 = false →
        (∀ i : Coodinate,
          ((C.mpGridBorders.boundsCheckGrid gpt).2.get i = BoundState.OUT_LOW →
              C.mAdjacentCompartments i Side.LOW = CompartmentType.INVALID)
            ∧ ((C.mpGridBorders.boundsCheckGrid gpt).2.get i = BoundState.OUT_HIGH →
              C.mAdjacentCompartments i Side.HIGH = CompartmentType.INVALID)) →
        C.transformGrid INSTANCES gpt = (none, gpt)) := by
  constructor
  · intro hout hinv
    rw [transform_outside INSTANCES C pt hout]
    rw [transformSwitch_invalid INSTANCES C Coodinate.X _ pt
      (hinv Coodinate.X).1 (hinv Coodinate.X).2]
    simp only [if_true]
    exact transformSwitch_invalid INSTANCES C Coodinate.Y _ pt
      (hinv Coodinate.Y).1 (hinv Coodinate.Y).2
  · intro hout hinv
    rw [transformGrid_outside INSTANCES C gpt hout]
    rw [transformGridSwitch_invalid INSTANCES C Coodinate.X _ gpt
      (hinv Coodinate.X).1 (hinv Coodinate.X).2]
    simp only [if_true]
    exact transformGridSwitch_invalid INSTANCES C Coodinate.Y _ gpt
      (hinv Coodinate.Y).1 (hinv Coodinate.Y).2

/-- Witness of C6: the example lumen has no neighbour below its low Y edge nor
beside its X edges; the point (-1/2, -1/2) and the grid cell (10, -1) resolve
to null and are not moved. -/
theorem C6_no_neighbour_gives_null_witness :
    (exampleInstances 1 CompartmentType.lumen).transform (exampleInstances 1)
        ⟨-1 / 2, -1 / 2⟩ = (none, ⟨-1 / 2, -1 / 2⟩)
      ∧ (exampleInstances 1 CompartmentType.lumen).transformGrid (exampleInstances 1)
        ⟨10, -1⟩ = (none, ⟨10, -1⟩) := by
  constructor
  · refine (C6_no_neighbour_gives_null (exampleInstances 1)
      (exampleInstances 1 CompartmentType.lumen) ⟨-1 / 2, -1 / 2⟩ ⟨10, -1⟩).1 ?_ ?_
    · norm_num [exampleInstances, exampleConfig, Compartment.construct,
        Borders.construct, Borders.setBorderType, Borders.boundsCheck, Borders.boundState,
        Vec2.get]
      simp
    · intro i
      cases i
      · norm_num [exampleInstances, exampleConfig, Compartment.construct, Vec2.get]
      · norm_num [exampleInstances, exampleConfig, Compartment.construct,
          Borders.construct, Borders.setBorderType, Borders.boundsCheck, Borders.boundState,
          Vec2.get]
        simp
  · refine (C6_no_neighbour_gives_null (exampleInstances 1)
      (exampleInstances 1 CompartmentType.lumen) ⟨-1 / 2, -1 / 2⟩ ⟨10, -1⟩).2 ?_ ?_
    · norm_num [exampleInstances, exampleConfig, Compartment.construct,
        Borders.construct, Borders.setBorderType, Borders.boundsCheckGrid,
        Borders.boundsCheck, Borders.boundState, Vec2.get]
      simp
    · intro i
      cases i
      · norm_num [exampleInstances, exampleConfig, Compartment.construct, Vec2.get]
      · norm_num [exampleInstances, exampleConfig, Compartment.construct,
          Borders.construct, Borders.setBorderType, Borders.boundsCheckGrid,
          Borders.boundsCheck, Borders.boundState, Vec2.get]
        simp

/-- A point with an axis not classified `INBOUND` is not inside. -/
theorem boundsCheck_outside (b : Borders) (pt : Vec2 ℚ) (i : Coodinate)
    (h : (b.boundsCheck pt).2.get i ≠ BoundState.INBOUND) :
    (b.boundsCheck pt).1 = false := by
  cases i
  · simp only [Borders.boundsCheck, Vec2.get] at h ⊢
    simp [h]
  · simp only [Borders.boundsCheck, Vec2.get] at h ⊢
    simp [h]

/-- A grid point with an axis not classified `INBOUND` is not inside. -/
theorem boundsCheckGrid_outside (b : Borders) (pt : Vec2 ℤ) (i : Coodinate)
    (h : (b.boundsCheckGrid pt).2.get i ≠ BoundState.INBOUND) :
    (b.boundsCheckGrid pt).1 = false :=
  boundsCheck_outside b _ i h

/-- C7: for a point that is `OUT_HIGH` on axis `i` whose HIGH adjacency is a
valid neighbour `T`, no earlier axis having resolved (for `i = Y`: X is in
bounds or has no neighbour on its violated side), the continuous transform
returns `T` and replaces the coordinate `c` on `i` by
`c + T.origin(i) - this.extent(i)`, leaving the other coordinate unchanged. In
particular, for `A` of extents 10 by 10 (origin zero, borders on these
dimensions) with HIGH-Y neighbour `B`, the point (5, 10.5) becomes
(5, B.origin.y + 0.5) with target `B`. -/
theorem C7_high_crossing_shift (INSTANCES : CompartmentType → Compartment)
    (C : Compartment) (i : Coodinate) (pt : Vec2 ℚ) (B : CompartmentType) :
    ((C.mpSpaceBorders.boundsCheck pt).2.get i = BoundState.OUT_HIGH →
        C.mAdjacentCompartments i Side.HIGH ≠ CompartmentType.INVALID →
        (i = Coodinate.Y →
          ((C.mpSpaceBorders.boundsCheck pt).2.get Coodinate.X = BoundState.OUT_LOW →
              C.mAdjacentCompartments Coodinate.X Side.LOW = CompartmentType.INVALID)
            ∧ ((C.mpSpaceBorders.boundsCheck pt).2.get Coodinate.X = BoundState.OUT_HIGH →
              C.mAdjacentCompartments Coodinate.X Side.HIGH = CompartmentType.INVALID)) →
        C.transform INSTANCES pt
            = (some (C.mAdjacentCompartments i Side.HIGH),
                pt.set i (pt.get i
                  + (INSTANCES (C.mAdjacentCompartments i Side.HIGH)).dimensions.origin.get i
                  - C.dimensions.extents.get i))
          ∧ ∀ j : Coodinate, j ≠ i → (C.transform INSTANCES pt).2.get j = pt.get j)
      ∧ (C.mpSpaceBorders.mDimensions = C.mDimensions →
        C.dimensions = ⟨⟨0, 0⟩, ⟨10, 10⟩⟩ →
        C.mAdjacentCompartments Coodinate.Y Side.HIGH = B →
        B ≠ CompartmentType.INVALID →
        C.transform INSTANCES ⟨5, 21 / 2⟩
          = (some B, ⟨5, (INSTANCES B).dimensions.origin.y + 1 / 2⟩)) := by
  have general : ∀ (i : Coodinate) (pt : Vec2 ℚ),
      (C.mpSpaceBorders.boundsCheck pt).2.get i = BoundState.OUT_HIGH →
      C.mAdjacentCompartments i Side.HIGH ≠ CompartmentType.INVALID →
      (i = Coodinate.Y →
        ((C.mpSpaceBorders.boundsCheck pt).2.get Coodinate.X = BoundState.OUT_LOW →
            C.mAdjacentCompartments Coodinate.X Side.LOW = CompartmentType.INVALID)
          ∧ ((C.mpSpaceBorders.boundsCheck pt).2.get Coodinate.X = BoundState.OUT_HIGH →
            C.mAdjacentCompartments Coodinate.X Side.HIGH = CompartmentType.INVALID)) →
      C.transform INSTANCES pt
          = (some (C.mAdjacentCompartments i Side.HIGH),
              pt.set i (pt.get i
                + (INSTANCES (C.mAdjacentCompartments i Side.HIGH)).dimensions.origin.get i
                - C.dimensions.extents.get i)) := by
    intro i pt hhigh hT hearlier
    have hout : (C.mpSpaceBorders.boundsCheck pt).1 = false :=
      boundsCheck_outside _ pt i (by rw [hhigh]; decide)
    rw [transform_outside INSTANCES C pt hout]
    cases i
    · rw [hhigh]
      simp only [Compartment.transformSwitch, hT, ne_eq, not_false_eq_true, if_true,
        Compartment.dimensions]
      simp only [reduceCtorEq, if_false, add_sub_assoc]
    · have hx := hearlier rfl
      rw [transformSwitch_invalid INSTANCES C Coodinate.X _ pt hx.1 hx.2, hhigh]
      simp only [Compartment.transformSwitch, hT, ne_eq, not_false_eq_true, if_true,
        Compartment.dimensions, add_sub_assoc]
  refine ⟨?_, ?_⟩
  · intro hhigh hT hearlier
    have e := general i pt hhigh hT hearlier
    refine ⟨e, ?_⟩
    intro j hj
    rw [e]
    cases i <;> cases j <;> first | exact absurd rfl hj | rfl
  · intro hdim hA hB hBv
    have hA2 : C.mDimensions = ⟨⟨0, 0⟩, ⟨10, 10⟩⟩ := hA
    have hstate : (C.mpSpaceBorders.boundsCheck ⟨5, 21 / 2⟩).2
        = ⟨BoundState.INBOUND, BoundState.OUT_HIGH⟩ := by
      simp only [Borders.boundsCheck, Borders.boundState, hdim, hA2, Vec2.get]
      norm_num
    have e := general Coodinate.Y ⟨5, 21 / 2⟩
      (by rw [hstate]; rfl) (by rw [hB]; exact hBv)
      (by
        intro _
        rw [hstate]
        exact ⟨fun h => absurd h (by decide), fun h => absurd h (by decide)⟩)
    rw [e, hB]
    simp only [Compartment.dimensions, hA2, Vec2.get, Vec2.set]
    congr 2
    ring

/-- Witness of C7: the scenario of the specification (the example lumen is 10
by 10 with the epithilium as HIGH-Y neighbour), and a crossing of the high X
edge of the compartment with neighbours on all four edges. -/
theorem C7_high_crossing_shift_witness :
    (exampleInstances 1 CompartmentType.lumen).transform (exampleInstances 1) ⟨5, 21 / 2⟩
        = (some CompartmentType.epithilium, ⟨5, 1 / 2⟩)
      ∧ exampleCorner.transform (exampleInstances 1) ⟨11, 2⟩
        = (some CompartmentType.gastric_lymph_node, ⟨1, 2⟩) := by
  constructor
  · have h := (C7_high_crossing_shift (exampleInstances 1)
      (exampleInstances 1 CompartmentType.lumen) Coodinate.Y ⟨5, 21 / 2⟩
      CompartmentType.epithilium).2 rfl
      (by norm_num [exampleInstances, exampleConfig, Compartment.construct,
        Compartment.dimensions])
      rfl (by decide)
    rw [h]
    norm_num [exampleInstances, exampleConfig, Compartment.construct, Compartment.dimensions]
  · have h := (C7_high_crossing_shift (exampleInstances 1) exampleCorner Coodinate.X
      ⟨11, 2⟩ CompartmentType.epithilium).1
      (by
        norm_num [exampleCorner, exampleInstances, exampleConfig, Compartment.construct,
          Borders.construct, Borders.setBorderType, Borders.boundsCheck, Borders.boundState,
          Vec2.get])
      (by simp [exampleCorner])
      (by intro h; exact absurd h (by decide))
    rw [h.1]
    norm_num [exampleCorner, exampleInstances, exampleConfig, Compartment.construct,
      Compartment.dimensions, Vec2.get, Vec2.set]

/-- Converting an integral `double` to `int` gives the integer back. -/
theorem toInt_intCast (z : ℤ) : toInt (z : ℚ) = z := by
  unfold toInt
  split_ifs
  · exact Int.floor_intCast z
  · exact Int.ceil_intCast z

/-- C8, as stated, fails. In the example (cell size 1) the epithilium, 10 by 4,
has the lumen, 10 by 10, as LOW-Y neighbour. The point (5, -1/2) is `OUT_LOW`
on Y and is sent to (5, 19/2), half a unit below the top of the lumen, whereas
`c + T.origin + T.extent - this.extent` is 11/2. In the compartment with
neighbours on all four edges the point (-1/2, -1/2) is `OUT_LOW` on Y with a
valid LOW-Y neighbour, yet its Y coordinate is not replaced at all, the X axis
having resolved first. -/
theorem C8_low_crossing_counterexample :
    ((exampleInstances 1 CompartmentType.epithilium).mpSpaceBorders.boundsCheck
          ⟨5, -1 / 2⟩).2.get Coodinate.Y = BoundState.OUT_LOW
      ∧ (exampleInstances 1 CompartmentType.epithilium).mAdjacentCompartments
          Coodinate.Y Side.LOW = CompartmentType.lumen
      ∧ (exampleInstances 1 CompartmentType.epithilium).transform (exampleInstances 1)
          ⟨5, -1 / 2⟩ = (some CompartmentType.lumen, ⟨5, 19 / 2⟩)
      ∧ (-1 / 2 : ℚ)
          + (exampleInstances 1 CompartmentType.lumen).dimensions.origin.get Coodinate.Y
          + (exampleInstances 1 CompartmentType.lumen).dimensions.extents.get Coodinate.Y
          - (exampleInstances 1 CompartmentType.epithilium).dimensions.extents.get Coodinate.Y
          = 11 / 2
      ∧ ((exampleInstances 1 CompartmentType.epithilium).transform (exampleInstances 1)
          ⟨5, -1 / 2⟩).2.get Coodinate.Y
          ≠ (-1 / 2 : ℚ)
            + (exampleInstances 1 CompartmentType.lumen).dimensions.origin.get Coodinate.Y
            + (exampleInstances 1 CompartmentType.lumen).dimensions.extents.get Coodinate.Y
            - (exampleInstances 1 CompartmentType.epithilium).dimensions.extents.get
                Coodinate.Y
      ∧ (exampleCorner.mpSpaceBorders.boundsCheck ⟨-1 / 2, -1 / 2⟩).2.get Coodinate.Y
          = BoundState.OUT_LOW
      ∧ exampleCorner.mAdjacentCompartments Coodinate.Y Side.LOW = CompartmentType.lumen
      ∧ exampleCorner.transform (exampleInstances 1) ⟨-1 / 2, -1 / 2⟩
          = (some CompartmentType.lamina_propria, ⟨13 / 2, -1 / 2⟩) := by
  have t1 : (exampleInstances 1 CompartmentType.epithilium).transform (exampleInstances 1)
      ⟨5, -1 / 2⟩ = (some CompartmentType.lumen, ⟨5, 19 / 2⟩) := by
    norm_num [Compartment.transform, Compartment.transformLoop, Compartment.transformSwitch,
      Borders.boundsCheck, Borders.boundState, Borders.transform, exampleInstances,
      exampleConfig, Compartment.construct, Borders.construct, Borders.setBorderType,
      Vec2.get, Vec2.set, Compartment.dimensions]
    simp
  have v1 : (-1 / 2 : ℚ)
      + (exampleInstances 1 CompartmentType.lumen).dimensions.origin.get Coodinate.Y
      + (exampleInstances 1 CompartmentType.lumen).dimensions.extents.get Coodinate.Y
      - (exampleInstances 1 CompartmentType.epithilium).dimensions.extents.get Coodinate.Y
      = 11 / 2 := by
    norm_num [exampleInstances, exampleConfig, Compartment.construct, Vec2.get,
      Compartment.dimensions]
  refine ⟨?_, rfl, t1, v1, ?_, ?_, rfl, ?_⟩
  · norm_num [Borders.boundsCheck, Borders.boundState, exampleInstances,
      exampleConfig, Compartment.construct, Borders.construct, Borders.setBorderType,
      Vec2.get]
  · rw [t1, v1]
    norm_num [Vec2.get]
  · norm_num [Borders.boundsCheck, Borders.boundState, exampleInstances, exampleCorner,
      exampleConfig, Compartment.construct, Borders.construct, Borders.setBorderType,
      Vec2.get]
  · norm_num [Compartment.transform, Compartment.transformLoop, Compartment.transformSwitch,
      Borders.boundsCheck, Borders.boundState, Borders.transform, exampleInstances,
      exampleCorner, exampleConfig, Compartment.construct, Borders.construct,
      Borders.setBorderType, Vec2.get, Vec2.set, Compartment.dimensions]
    simp

/-- C8, amended: for a point that is `OUT_LOW` on axis `i` whose LOW adjacency
is a valid neighbour `T`, no earlier axis having resolved (for `i = Y`: X is in
bounds or has no neighbour on its violated side), the continuous transform
returns `T` and replaces the coordinate `c` on `i` by
`c + T.origin(i) + T.extent(i) - this.origin(i)`. The grid transform does the
same, the sum being converted to `int`, where the grid dimensions of both
compartments are their `dimensions()` (cell size 1). -/
theorem C8_low_crossing_shift (INSTANCES : CompartmentType → Compartment)
    (C : Compartment) (i : Coodinate) (pt : Vec2 ℚ) (gpt : Vec2 ℤ) :
    ((C.mpSpaceBorders.boundsCheck pt).2.get i = BoundState.OUT_LOW →
        C.mAdjacentCompartments i Side.LOW ≠ CompartmentType.INVALID →
        (i = Coodinate.Y →
          ((C.mpSpaceBorders.boundsCheck pt).2.get Coodinate.X = BoundState.OUT_LOW →
              C.mAdjacentCompartments Coodinate.X Side.LOW = CompartmentType.INVALID)
            ∧ ((C.mpSpaceBorders.boundsCheck pt).2.get Coodinate.X = BoundState.OUT_HIGH →
              C.mAdjacentCompartments Coodinate.X Side.HIGH = CompartmentType.INVALID)) →
        C.transform INSTANCES pt
            = (some (C.mAdjacentCompartments i Side.LOW),
                pt.set i (pt.get i
                  + (INSTANCES (C.mAdjacentCompartments i Side.LOW)).dimensions.origin.get i
                  + (INSTANCES (C.mAdjacentCompartments i Side.LOW)).dimensions.extents.get i
                  - C.dimensions.origin.get i)))
      ∧ ((C.mpGridBorders.boundsCheckGrid gpt).2.get i = BoundState.OUT_LOW →
        C.mAdjacentCompartments i Side.LOW ≠ CompartmentType.INVALID →
        (i = Coodinate.Y →
          ((C.mpGridBorders.boundsCheckGrid gpt).2.get Coodinate.X = BoundState.OUT_LOW →
              C.mAdjacentCompartments Coodinate.X Side.LOW = CompartmentType.INVALID)
            ∧ ((C.mpGridBorders.boundsCheckGrid gpt).2.get Coodinate.X = BoundState.OUT_HIGH →
              C.mAdjacentCompartments Coodinate.X Side.HIGH = CompartmentType.INVALID)) →
        C.mpGridBorders.mDimensions = C.dimensions →
        (INSTANCES (C.mAdjacentCompartments i Side.LOW)).mpGridBorders.mDimensions
          = (INSTANCES (C.mAdjacentCompartments i Side.LOW)).dimensions →
        C.transformGrid INSTANCES gpt
            = (some (C.mAdjacentCompartments i Side.LOW),
                gpt.set i (toInt (((gpt.get i : ℤ) : ℚ)
                  + (INSTANCES (C.mAdjacentCompartments i Side.LOW)).mpGridBorders.mDimensions.origin.get i
                  + (INSTANCES (C.mAdjacentCompartments i Side.LOW)).mpGridBorders.mDimensions.extents.get i
                  - C.mpGridBorders.mDimensions.origin.get i)))) := by
  constructor
  · intro hlow hT hearlier
    have hout : (C.mpSpaceBorders.boundsCheck pt).1 = false :=
      boundsCheck_outside _ pt i (by rw [hlow]; decide)
    rw [transform_outside INSTANCES C pt hout]
    cases i
    · rw [hlow]
      simp only [Compartment.transformSwitch, hT, ne_eq, not_false_eq_true, if_true,
        Compartment.dimensions]
      simp only [reduceCtorEq, if_false, add_sub_assoc, add_assoc]
    · have hx := hearlier rfl
      rw [transformSwitch_invalid INSTANCES C Coodinate.X _ pt hx.1 hx.2, hlow]
      simp only [Compartment.transformSwitch, hT, ne_eq, not_false_eq_true, if_true,
        Compartment.dimensions, add_sub_assoc, add_assoc]
  · intro hlow hT hearlier hC hN
    have hout : (C.mpGridBorders.boundsCheckGrid gpt).1 = false :=
      boundsCheckGrid_outside _ gpt i (by rw [hlow]; decide)
    rw [transformGrid_outside INSTANCES C gpt hout, hC, hN]
    cases i
    · rw [hlow]
      simp only [Compartment.transformGridSwitch, hT, ne_eq, not_false_eq_true, if_true,
        Compartment.dimensions]
      simp only [reduceCtorEq, if_false, add_sub_assoc, add_assoc]
    · have hx := hearlier rfl
      rw [transformGridSwitch_invalid INSTANCES C Coodinate.X _ gpt hx.1 hx.2, hlow]
      simp only [Compartment.transformGridSwitch, hT, ne_eq, not_false_eq_true, if_true,
        Compartment.dimensions, add_sub_assoc, add_assoc]

/-- Witness of C8 (amended): below the low Y edge of the example epithilium
(cell size 1) the point (5, -1/2) goes to (5, 19/2) in the lumen and the grid
cell (5, -1) to the cell (5, 9) of the lumen. -/
theorem C8_low_crossing_shift_witness :
    (exampleInstances 1 CompartmentType.epithilium).transform (exampleInstances 1)
        ⟨5, -1 / 2⟩ = (some CompartmentType.lumen, ⟨5, 19 / 2⟩)
      ∧ (exampleInstances 1 CompartmentType.epithilium).transformGrid (exampleInstances 1)
        ⟨5, -1⟩ = (some CompartmentType.lumen, ⟨5, 9⟩) := by
  have e1 : (exampleInstances 1 CompartmentType.epithilium).mAdjacentCompartments
      Coodinate.Y Side.LOW = CompartmentType.lumen := rfl
  constructor
  · have h := (C8_low_crossing_shift (exampleInstances 1)
      (exampleInstances 1 CompartmentType.epithilium) Coodinate.Y ⟨5, -1 / 2⟩ ⟨5, -1⟩).1
      (by
        norm_num [exampleInstances, exampleConfig, Compartment.construct,
          Borders.construct, Borders.setBorderType, Borders.boundsCheck, Borders.boundState,
          Vec2.get])
      (by rw [e1]; decide)
      (by intro _; exact ⟨fun _ => rfl, fun _ => rfl⟩)
    rw [h, e1]
    norm_num [exampleInstances, exampleConfig, Compartment.construct,
      Compartment.dimensions, Vec2.get, Vec2.set]
  · have h := (C8_low_crossing_shift (exampleInstances 1)
      (exampleInstances 1 CompartmentType.epithilium) Coodinate.Y ⟨5, -1 / 2⟩ ⟨5, -1⟩).2
      (by
        norm_num [exampleInstances, exampleConfig, Compartment.construct,
          Borders.construct, Borders.setBorderType, Borders.boundsCheckGrid,
          Borders.boundsCheck, Borders.boundState, Vec2.get])
      (by rw [e1]; decide)
      (by intro _; exact ⟨fun _ => rfl, fun _ => rfl⟩)
      (by
        norm_num [exampleInstances, exampleConfig, Compartment.construct,
          Compartment.dimensions, Borders.construct, Borders.setBorderType])
      (by
        rw [e1]
        norm_num [exampleInstances, exampleConfig, Compartment.construct,
          Compartment.dimensions, Borders.construct, Borders.setBorderType])
    rw [h, e1]
    norm_num [exampleInstances, exampleConfig, Compartment.construct, Vec2.get, Vec2.set,
      toInt, Borders.construct, Borders.setBorderType]

/-- When the X axis yields a valid target, the continuous transform returns
it and does not touch the Y coordinate. -/
theorem transform_x_resolves (INSTANCES : CompartmentType → Compartment) (C : Compartment)
    (pt : Vec2 ℚ)
    (hx : ((C.mpSpaceBorders.boundsCheck pt).2.get Coodinate.X = BoundState.OUT_LOW
          ∧ C.mAdjacentCompartments Coodinate.X Side.LOW ≠ CompartmentType.INVALID)
        ∨ ((C.mpSpaceBorders.boundsCheck pt).2.get Coodinate.X = BoundState.OUT_HIGH
          ∧ C.mAdjacentCompartments Coodinate.X Side.HIGH ≠ CompartmentType.INVALID)) :
    (C.transform INSTANCES pt).2.get Coodinate.Y = pt.get Coodinate.Y
      ∧ ((C.mpSpaceBorders.boundsCheck pt).2.get Coodinate.X = BoundState.OUT_LOW →
          (C.transform INSTANCES pt).1 = some (C.mAdjacentCompartments Coodinate.X Side.LOW))
      ∧ ((C.mpSpaceBorders.boundsCheck pt).2.get Coodinate.X = BoundState.OUT_HIGH →
          (C.transform INSTANCES pt).1
            = some (C.mAdjacentCompartments Coodinate.X Side.HIGH)) := by
  rcases hx with ⟨hs, hv⟩ | ⟨hs, hv⟩
  · have hout : (C.mpSpaceBorders.boundsCheck pt).1 = false :=
      boundsCheck_outside _ pt Coodinate.X (by rw [hs]; decide)
    rw [transform_outside INSTANCES C pt hout, hs]
    simp only [Compartment.transformSwitch, hv, ne_eq, not_false_eq_true, if_true]
    simp only [reduceCtorEq, if_false, Vec2.get, Vec2.set, true_and, forall_true_left]
    intro h
    exact absurd h (by decide)
  · have hout : (C.mpSpaceBorders.boundsCheck pt).1 = false :=
      boundsCheck_outside _ pt Coodinate.X (by rw [hs]; decide)
    rw [transform_outside INSTANCES C pt hout, hs]
    simp only [Compartment.transformSwitch, hv, ne_eq, not_false_eq_true, if_true]
    simp only [reduceCtorEq, if_false, Vec2.get, Vec2.set, true_and, forall_true_left,
      and_true]
    intro h
    exact absurd h (by decide)

/-- The `switch` of the continuous transform on the Y axis does not touch the
X coordinate. -/
theorem transformSwitch_Y_keeps_x (INSTANCES : CompartmentType → Compartment)
    (C : Compartment) (state : BoundState) (pt : Vec2 ℚ) :
    (C.transformSwitch INSTANCES Coodinate.Y state pt).2.get Coodinate.X
      = pt.get Coodinate.X := by
  cases state <;> simp only [Compartment.transformSwitch] <;> split_ifs <;> rfl

/-- When the X axis yields no valid target, the continuous transform does not
touch the X coordinate. -/
theorem transform_x_unresolved (INSTANCES : CompartmentType → Compartment) (C : Compartment)
    (pt : Vec2 ℚ)
    (hlow : (C.mpSpaceBorders.boundsCheck pt).2.get Coodinate.X = BoundState.OUT_LOW →
      C.mAdjacentCompartments Coodinate.X Side.LOW = CompartmentType.INVALID)
    (hhigh : (C.mpSpaceBorders.boundsCheck pt).2.get Coodinate.X = BoundState.OUT_HIGH →
      C.mAdjacentCompartments Coodinate.X Side.HIGH = CompartmentType.INVALID) :
    (C.transform INSTANCES pt).2.get Coodinate.X = pt.get Coodinate.X := by
  cases hin : (C.mpSpaceBorders.boundsCheck pt).1
  · rw [transform_outside INSTANCES C pt hin,
      transformSwitch_invalid INSTANCES C Coodinate.X _ pt hlow hhigh]
    simp only [if_true]
    exact transformSwitch_Y_keeps_x INSTANCES C _ pt
  · rw [transform_inside INSTANCES C pt hin]

/-- When the X axis yields a valid target, the grid transform returns
it and does not touch the Y coordinate. -/
theorem transformGrid_x_resolves (INSTANCES : CompartmentType → Compartment) (C : Compartment)
    (pt : Vec2 ℤ)
    (hx : ((C.mpGridBorders.boundsCheckGrid pt).2.get Coodinate.X = BoundState.OUT_LOW
          ∧ C.mAdjacentCompartments Coodinate.X Side.LOW ≠ CompartmentType.INVALID)
        ∨ ((C.mpGridBorders.boundsCheckGrid pt).2.get Coodinate.X = BoundState.OUT_HIGH
          ∧ C.mAdjacentCompartments Coodinate.X Side.HIGH ≠ CompartmentType.INVALID)) :
    (C.transformGrid INSTANCES pt).2.get Coodinate.Y = pt.get Coodinate.Y
      ∧ ((C.mpGridBorders.boundsCheckGrid pt).2.get Coodinate.X = BoundState.OUT_LOW →
          (C.transformGrid INSTANCES pt).1 = some (C.mAdjacentCompartments Coodinate.X Side.LOW))
      ∧ ((C.mpGridBorders.boundsCheckGrid pt).2.get Coodinate.X = BoundState.OUT_HIGH →
          (C.transformGrid INSTANCES pt).1
            = some (C.mAdjacentCompartments Coodinate.X Side.HIGH)) := by
  rcases hx with ⟨hs, hv⟩ | ⟨hs, hv⟩
  · have hout : (C.mpGridBorders.boundsCheckGrid pt).1 = false :=
      boundsCheckGrid_outside _ pt Coodinate.X (by rw [hs]; decide)
    rw [transformGrid_outside INSTANCES C pt hout, hs]
    simp only [Compartment.transformGridSwitch, hv, ne_eq, not_false_eq_true, if_true]
    simp only [reduceCtorEq, if_false, Vec2.get, Vec2.set, true_and, forall_true_left]
    intro h
    exact absurd h (by decide)
  · have hout : (C.mpGridBorders.boundsCheckGrid pt).1 = false :=
      boundsCheckGrid_outside _ pt Coodinate.X (by rw [hs]; decide)
    rw [transformGrid_outside INSTANCES C pt hout, hs]
    simp only [Compartment.transformGridSwitch, hv, ne_eq, not_false_eq_true, if_true]
    simp only [reduceCtorEq, if_false, Vec2.get, Vec2.set, true_and, forall_true_left,
      and_true]
    intro h
    exact absurd h (by decide)

/-- The `switch` of the grid transform on the Y axis does not touch the
X coordinate. -/
theorem transformGridSwitch_Y_keeps_x (INSTANCES : CompartmentType → Compartment)
    (C : Compartment) (state : BoundState) (pt : Vec2 ℤ) :
    (C.transformGridSwitch INSTANCES Coodinate.Y state pt).2.get Coodinate.X
      = pt.get Coodinate.X := by
  cases state <;> simp only [Compartment.transformGridSwitch] <;> split_ifs <;> rfl

/-- When the X axis yields no valid target, the grid transform does not
touch the X coordinate. -/
theorem transformGrid_x_unresolved (INSTANCES : CompartmentType → Compartment) (C : Compartment)
    (pt : Vec2 ℤ)
    (hlow : (C.mpGridBorders.boundsCheckGrid pt).2.get Coodinate.X = BoundState.OUT_LOW →
      C.mAdjacentCompartments Coodinate.X Side.LOW = CompartmentType.INVALID)
    (hhigh : (C.mpGridBorders.boundsCheckGrid pt).2.get Coodinate.X = BoundState.OUT_HIGH →
      C.mAdjacentCompartments Coodinate.X Side.HIGH = CompartmentType.INVALID) :
    (C.transformGrid INSTANCES pt).2.get Coodinate.X = pt.get Coodinate.X := by
  cases hin : (C.mpGridBorders.boundsCheckGrid pt).1
  · rw [transformGrid_outside INSTANCES C pt hin,
      transformGridSwitch_invalid INSTANCES C Coodinate.X _ pt hlow hhigh]
    simp only [if_true]
    exact transformGridSwitch_Y_keeps_x INSTANCES C _ pt
  · rw [transformGrid_inside INSTANCES C pt hin]

/-- C9: for every adjacency table and every point out of bounds on X and on
Y, both violated edges having valid neighbours, `transform` (continuous and
grid) returns the neighbour on the violated X edge, replaces the X coordinate
by the shifted one (`x + N.origin + N.extent - this.origin` across the LOW
edge, `x + N.origin - this.extent` across the HIGH edge, with the origin and
extents of `dimensions()`, converted to `int` in the grid variant) and leaves
the Y coordinate unchanged. In general only the first axis that yields a valid
target modifies the point: when X yields one, the same holds whatever the
state of Y, and when X yields none, X is left unchanged. -/
theorem C9_first_axis_only (INSTANCES : CompartmentType → Compartment)
    (C : Compartment) (pt : Vec2 ℚ) (gpt : Vec2 ℤ) :
    ((((C.mpSpaceBorders.boundsCheck pt).2.get Coodinate.X = BoundState.OUT_LOW
            ∧ C.mAdjacentCompartments Coodinate.X Side.LOW ≠ CompartmentType.INVALID)
          ∨ ((C.mpSpaceBorders.boundsCheck pt).2.get Coodinate.X = BoundState.OUT_HIGH
            ∧ C.mAdjacentCompartments Coodinate.X Side.HIGH ≠ CompartmentType.INVALID)) →
        (((C.mpSpaceBorders.boundsCheck pt).2.get Coodinate.Y = BoundState.OUT_LOW
            ∧ C.mAdjacentCompartments Coodinate.Y Side.LOW ≠ CompartmentType.INVALID)
          ∨ ((C.mpSpaceBorders.boundsCheck pt).2.get Coodinate.Y = BoundState.OUT_HIGH
            ∧ C.mAdjacentCompartments Coodinate.Y Side.HIGH ≠ CompartmentType.INVALID)) →
        (C.transform INSTANCES pt).2.get Coodinate.Y = pt.get Coodinate.Y
          ∧ ((C.mpSpaceBorders.boundsCheck pt).2.get Coodinate.X = BoundState.OUT_LOW →
            C.transform INSTANCES pt
              = (some (C.mAdjacentCompartments Coodinate.X Side.LOW),
                pt.set Coodinate.X (pt.get Coodinate.X
                  + ((INSTANCES (C.mAdjacentCompartments Coodinate.X Side.LOW)).dimensions.origin.get Coodinate.X
                    + (INSTANCES (C.mAdjacentCompartments Coodinate.X Side.LOW)).dimensions.extents.get Coodinate.X
                    - C.dimensions.origin.get Coodinate.X))))
          ∧ ((C.mpSpaceBorders.boundsCheck pt).2.get Coodinate.X = BoundState.OUT_HIGH →
            C.transform INSTANCES pt
              = (some (C.mAdjacentCompartments Coodinate.X Side.HIGH),
                pt.set Coodinate.X (pt.get Coodinate.X
                  + ((INSTANCES (C.mAdjacentCompartments Coodinate.X Side.HIGH)).dimensions.origin.get Coodinate.X
                    - C.dimensions.extents.get Coodinate.X)))))
      ∧ ((((C.mpSpaceBorders.boundsCheck pt).2.get Coodinate.X = BoundState.OUT_LOW
            ∧ C.mAdjacentCompartments Coodinate.X Side.LOW ≠ CompartmentType.INVALID)
          ∨ ((C.mpSpaceBorders.boundsCheck pt).2.get Coodinate.X = BoundState.OUT_HIGH
            ∧ C.mAdjacentCompartments Coodinate.X Side.HIGH ≠ CompartmentType.INVALID)) →
        (C.transform INSTANCES pt).2.get Coodinate.Y = pt.get Coodinate.Y
          ∧ ((C.mpSpaceBorders.boundsCheck pt).2.get Coodinate.X = BoundState.OUT_LOW →
            C.transform INSTANCES pt
              = (some (C.mAdjacentCompartments Coodinate.X Side.LOW),
                pt.set Coodinate.X (pt.get Coodinate.X
                  + ((INSTANCES (C.mAdjacentCompartments Coodinate.X Side.LOW)).dimensions.origin.get Coodinate.X
                    + (INSTANCES (C.mAdjacentCompartments Coodinate.X Side.LOW)).dimensions.extents.get Coodinate.X
                    - C.dimensions.origin.get Coodinate.X))))
          ∧ ((C.mpSpaceBorders.boundsCheck pt).2.get Coodinate.X = BoundState.OUT_HIGH →
            C.transform INSTANCES pt
              = (some (C.mAdjacentCompartments Coodinate.X Side.HIGH),
                pt.set Coodinate.X (pt.get Coodinate.X
                  + ((INSTANCES (C.mAdjacentCompartments Coodinate.X Side.HIGH)).dimensions.origin.get Coodinate.X
                    - C.dimensions.extents.get Coodinate.X)))))
      ∧ (¬ (((C.mpSpaceBorders.boundsCheck pt).2.get Coodinate.X = BoundState.OUT_LOW
            ∧ C.mAdjacentCompartments Coodinate.X Side.LOW ≠ CompartmentType.INVALID)
          ∨ ((C.mpSpaceBorders.boundsCheck pt).2.get Coodinate.X = BoundState.OUT_HIGH
            ∧ C.mAdjacentCompartments Coodinate.X Side.HIGH ≠ CompartmentType.INVALID)) →
        (C.transform INSTANCES pt).2.get Coodinate.X = pt.get Coodinate.X)
      ∧ ((((C.mpGridBorders.boundsCheckGrid gpt).2.get Coodinate.X = BoundState.OUT_LOW
            ∧ C.mAdjacentCompartments Coodinate.X Side.LOW ≠ CompartmentType.INVALID)
          ∨ ((C.mpGridBorders.boundsCheckGrid gpt).2.get Coodinate.X = BoundState.OUT_HIGH
            ∧ C.mAdjacentCompartments Coodinate.X Side.HIGH ≠ CompartmentType.INVALID)) →
        (((C.mpGridBorders.boundsCheckGrid gpt).2.get Coodinate.Y = BoundState.OUT_LOW
            ∧ C.mAdjacentCompartments Coodinate.Y Side.LOW ≠ CompartmentType.INVALID)
          ∨ ((C.mpGridBorders.boundsCheckGrid gpt).2.get Coodinate.Y = BoundState.OUT_HIGH
            ∧ C.mAdjacentCompartments Coodinate.Y Side.HIGH ≠ CompartmentType.INVALID)) →
        (C.transformGrid INSTANCES gpt).2.get Coodinate.Y = gpt.get Coodinate.Y
          ∧ ((C.mpGridBorders.boundsCheckGrid gpt).2.get Coodinate.X = BoundState.OUT_LOW →
            C.transformGrid INSTANCES gpt
              = (some (C.mAdjacentCompartments Coodinate.X Side.LOW),
                gpt.set Coodinate.X (toInt (((gpt.get Coodinate.X : ℤ) : ℚ)
                  + ((INSTANCES (C.mAdjacentCompartments Coodinate.X Side.LOW)).dimensions.origin.get Coodinate.X
                    + (INSTANCES (C.mAdjacentCompartments Coodinate.X Side.LOW)).dimensions.extents.get Coodinate.X
                    - C.dimensions.origin.get Coodinate.X)))))
          ∧ ((C.mpGridBorders.boundsCheckGrid gpt).2.get Coodinate.X = BoundState.OUT_HIGH →
            C.transformGrid INSTANCES gpt
              = (some (C.mAdjacentCompartments Coodinate.X Side.HIGH),
                gpt.set Coodinate.X (toInt (((gpt.get Coodinate.X : ℤ) : ℚ)
                  + ((INSTANCES (C.mAdjacentCompartments Coodinate.X Side.HIGH)).dimensions.origin.get Coodinate.X
                    - C.dimensions.extents.get Coodinate.X))))))
      ∧ ((((C.mpGridBorders.boundsCheckGrid gpt).2.get Coodinate.X = BoundState.OUT_LOW
            ∧ C.mAdjacentCompartments Coodinate.X Side.LOW ≠ CompartmentType.INVALID)
          ∨ ((C.mpGridBorders.boundsCheckGrid gpt).2.get Coodinate.X = BoundState.OUT_HIGH
            ∧ C.mAdjacentCompartments Coodinate.X Side.HIGH ≠ CompartmentType.INVALID)) →
        (C.transformGrid INSTANCES gpt).2.get Coodinate.Y = gpt.get Coodinate.Y
          ∧ ((C.mpGridBorders.boundsCheckGrid gpt).2.get Coodinate.X = BoundState.OUT_LOW →
            C.transformGrid INSTANCES gpt
              = (some (C.mAdjacentCompartments Coodinate.X Side.LOW),
                gpt.set Coodinate.X (toInt (((gpt.get Coodinate.X : ℤ) : ℚ)
                  + ((INSTANCES (C.mAdjacentCompartments Coodinate.X Side.LOW)).dimensions.origin.get Coodinate.X
                    + (INSTANCES (C.mAdjacentCompartments Coodinate.X Side.LOW)).dimensions.extents.get Coodinate.X
                    - C.dimensions.origin.get Coodinate.X)))))
          ∧ ((C.mpGridBorders.boundsCheckGrid gpt).2.get Coodinate.X = BoundState.OUT_HIGH →
            C.transformGrid INSTANCES gpt
              = (some (C.mAdjacentCompartments Coodinate.X Side.HIGH),
                gpt.set Coodinate.X (toInt (((gpt.get Coodinate.X : ℤ) : ℚ)
                  + ((INSTANCES (C.mAdjacentCompartments Coodinate.X Side.HIGH)).dimensions.origin.get Coodinate.X
                    - C.dimensions.extents.get Coodinate.X))))))
      ∧ (¬ (((C.mpGridBorders.boundsCheckGrid gpt).2.get Coodinate.X = BoundState.OUT_LOW
            ∧ C.mAdjacentCompartments Coodinate.X Side.LOW ≠ CompartmentType.INVALID)
          ∨ ((C.mpGridBorders.boundsCheckGrid gpt).2.get Coodinate.X = BoundState.OUT_HIGH
            ∧ C.mAdjacentCompartments Coodinate.X Side.HIGH ≠ CompartmentType.INVALID)) →
        (C.transformGrid INSTANCES gpt).2.get Coodinate.X = gpt.get Coodinate.X) := by
  refine ⟨?_, ?_, ?_, ?_, ?_, ?_⟩
  · intro hx _
    rcases hx with ⟨hs, hv⟩ | ⟨hs, hv⟩
    · have hout : (C.mpSpaceBorders.boundsCheck pt).1 = false :=
        boundsCheck_outside _ pt Coodinate.X (by rw [hs]; decide)
      rw [transform_outside INSTANCES C pt hout, hs]
      simp only [Compartment.transformSwitch, hv, ne_eq, not_false_eq_true, if_true,
        Compartment.dimensions]
      simp only [reduceCtorEq, if_false, Vec2.get, Vec2.set, true_and, forall_true_left]
      intro h
      exact absurd h (by decide)
    · have hout : (C.mpSpaceBorders.boundsCheck pt).1 = false :=
        boundsCheck_outside _ pt Coodinate.X (by rw [hs]; decide)
      rw [transform_outside INSTANCES C pt hout, hs]
      simp only [Compartment.transformSwitch, hv, ne_eq, not_false_eq_true, if_true,
        Compartment.dimensions]
      simp only [reduceCtorEq, if_false, Vec2.get, Vec2.set, true_and, forall_true_left,
        and_true]
      intro h
      exact absurd h (by decide)
  · intro hx
    rcases hx with ⟨hs, hv⟩ | ⟨hs, hv⟩
    · have hout : (C.mpSpaceBorders.boundsCheck pt).1 = false :=
        boundsCheck_outside _ pt Coodinate.X (by rw [hs]; decide)
      rw [transform_outside INSTANCES C pt hout, hs]
      simp only [Compartment.transformSwitch, hv, ne_eq, not_false_eq_true, if_true,
        Compartment.dimensions]
      simp only [reduceCtorEq, if_false, Vec2.get, Vec2.set, true_and, forall_true_left]
      intro h
      exact absurd h (by decide)
    · have hout : (C.mpSpaceBorders.boundsCheck pt).1 = false :=
        boundsCheck_outside _ pt Coodinate.X (by rw [hs]; decide)
      rw [transform_outside INSTANCES C pt hout, hs]
      simp only [Compartment.transformSwitch, hv, ne_eq, not_false_eq_true, if_true,
        Compartment.dimensions]
      simp only [reduceCtorEq, if_false, Vec2.get, Vec2.set, true_and, forall_true_left,
        and_true]
      intro h
      exact absurd h (by decide)
  · intro hx
    apply transform_x_unresolved INSTANCES C pt
    · intro hs
      by_contra hv
      exact hx (Or.inl ⟨hs, hv⟩)
    · intro hs
      by_contra hv
      exact hx (Or.inr ⟨hs, hv⟩)
  · intro hx _
    rcases hx with ⟨hs, hv⟩ | ⟨hs, hv⟩
    · have hout : (C.mpGridBorders.boundsCheckGrid gpt).1 = false :=
        boundsCheckGrid_outside _ gpt Coodinate.X (by rw [hs]; decide)
      rw [transformGrid_outside INSTANCES C gpt hout, hs]
      simp only [Compartment.transformGridSwitch, hv, ne_eq, not_false_eq_true, if_true,
        Compartment.dimensions]
      simp only [reduceCtorEq, if_false, Vec2.get, Vec2.set, true_and, forall_true_left]
      intro h
      exact absurd h (by decide)
    · have hout : (C.mpGridBorders.boundsCheckGrid gpt).1 = false :=
        boundsCheckGrid_outside _ gpt Coodinate.X (by rw [hs]; decide)
      rw [transformGrid_outside INSTANCES C gpt hout, hs]
      simp only [Compartment.transformGridSwitch, hv, ne_eq, not_false_eq_true, if_true,
        Compartment.dimensions]
      simp only [reduceCtorEq, if_false, Vec2.get, Vec2.set, true_and, forall_true_left,
        and_true]
      intro h
      exact absurd h (by decide)
  · intro hx
    rcases hx with ⟨hs, hv⟩ | ⟨hs, hv⟩
    · have hout : (C.mpGridBorders.boundsCheckGrid gpt).1 = false :=
        boundsCheckGrid_outside _ gpt Coodinate.X (by rw [hs]; decide)
      rw [transformGrid_outside INSTANCES C gpt hout, hs]
      simp only [Compartment.transformGridSwitch, hv, ne_eq, not_false_eq_true, if_true,
        Compartment.dimensions]
      simp only [reduceCtorEq, if_false, Vec2.get, Vec2.set, true_and, forall_true_left]
      intro h
      exact absurd h (by decide)
    · have hout : (C.mpGridBorders.boundsCheckGrid gpt).1 = false :=
        boundsCheckGrid_outside _ gpt Coodinate.X (by rw [hs]; decide)
      rw [transformGrid_outside INSTANCES C gpt hout, hs]
      simp only [Compartment.transformGridSwitch, hv, ne_eq, not_false_eq_true, if_true,
        Compartment.dimensions]
      simp only [reduceCtorEq, if_false, Vec2.get, Vec2.set, true_and, forall_true_left,
        and_true]
      intro h
      exact absurd h (by decide)
  · intro hx
    apply transformGrid_x_unresolved INSTANCES C gpt
    · intro hs
      by_contra hv
      exact hx (Or.inl ⟨hs, hv⟩)
    · intro hs
      by_contra hv
      exact hx (Or.inr ⟨hs, hv⟩)

/-- Witness of C9: at the corners of the compartment with neighbours on all
four edges, the point (-1/2, -1/2) goes to the low X neighbour (7 wide) as
(13/2, -1/2) and the grid cell (10, 4) to the high X neighbour as (0, 4): the
X coordinate is shifted, the Y coordinate stays as it was. -/
theorem C9_first_axis_only_witness :
    exampleCorner.transform (exampleInstances 1) ⟨-1 / 2, -1 / 2⟩
        = (some CompartmentType.lamina_propria, ⟨13 / 2, -1 / 2⟩)
      ∧ exampleCorner.transformGrid (exampleInstances 1) ⟨10, 4⟩
        = (some CompartmentType.gastric_lymph_node, ⟨0, 4⟩) := by
  have sx : (exampleCorner.mpSpaceBorders.boundsCheck ⟨-1 / 2, -1 / 2⟩).2.get Coodinate.X
      = BoundState.OUT_LOW := by
    norm_num [exampleCorner, exampleInstances, exampleConfig, Compartment.construct,
      Borders.construct, Borders.setBorderType, Borders.boundsCheck, Borders.boundState,
      Vec2.get]
  have sy : (exampleCorner.mpSpaceBorders.boundsCheck ⟨-1 / 2, -1 / 2⟩).2.get Coodinate.Y
      = BoundState.OUT_LOW := by
    norm_num [exampleCorner, exampleInstances, exampleConfig, Compartment.construct,
      Borders.construct, Borders.setBorderType, Borders.boundsCheck, Borders.boundState,
      Vec2.get]
  have gx : (exampleCorner.mpGridBorders.boundsCheckGrid ⟨10, 4⟩).2.get Coodinate.X
      = BoundState.OUT_HIGH := by
    norm_num [exampleCorner, exampleInstances, exampleConfig, Compartment.construct,
      Borders.construct, Borders.setBorderType, Borders.boundsCheckGrid,
      Borders.boundsCheck, Borders.boundState, Vec2.get]
  have gy : (exampleCorner.mpGridBorders.boundsCheckGrid ⟨10, 4⟩).2.get Coodinate.Y
      = BoundState.OUT_HIGH := by
    norm_num [exampleCorner, exampleInstances, exampleConfig, Compartment.construct,
      Borders.construct, Borders.setBorderType, Borders.boundsCheckGrid,
      Borders.boundsCheck, Borders.boundState, Vec2.get]
  have h := C9_first_axis_only (exampleInstances 1) exampleCorner ⟨-1 / 2, -1 / 2⟩ ⟨10, 4⟩
  obtain ⟨hc, -, -, hg, -, -⟩ := h
  have hc2 := (hc (Or.inl ⟨sx, by simp [exampleCorner]⟩)
    (Or.inl ⟨sy, by simp [exampleCorner]⟩)).2.1 sx
  have hg2 := (hg (Or.inr ⟨gx, by simp [exampleCorner]⟩)
    (Or.inr ⟨gy, by simp [exampleCorner]⟩)).2.2 gx
  constructor
  · rw [hc2]
    norm_num [exampleCorner, exampleInstances, exampleConfig, Compartment.construct,
      Compartment.dimensions, Vec2.get, Vec2.set]
  · rw [hg2]
    norm_num [exampleCorner, exampleInstances, exampleConfig, Compartment.construct,
      Compartment.dimensions, Vec2.get, Vec2.set, toInt]

/-- C10, at cell size 2 in the example configuration: the lumen (grid 5 by 5,
space 10 by 10) lies below the epithilium (grid 5 by 2, space 10 by 4). The
grid transform classifies the point against the grid borders and then shifts
it by the continuous-space `dimensions()`: the cell (2, -1), one cell below the
low Y edge of the epithilium, is sent to row 9 of the lumen, outside its grid
rows `[0, 5)`, and the cell (2, 5), the first one past the high Y edge of the
lumen, is sent to row -5 of the epithilium, outside its grid rows `[0, 2)`. -/
theorem C10_grid_transform_leaves_grid_bounds :
    (exampleInstances 2 CompartmentType.lumen).mpGridBorders.mDimensions
        = ⟨⟨0, 0⟩, ⟨5, 5⟩⟩
      ∧ (exampleInstances 2 CompartmentType.epithilium).mpGridBorders.mDimensions
        = ⟨⟨0, 0⟩, ⟨5, 2⟩⟩
      ∧ (exampleInstances 2 CompartmentType.epithilium).transformGrid (exampleInstances 2)
          ⟨2, -1⟩ = (some CompartmentType.lumen, ⟨2, 9⟩)
      ∧ ¬ (((9 : ℤ) : ℚ)
          < (exampleInstances 2 CompartmentType.lumen).mpGridBorders.mDimensions.origin.y
            + (exampleInstances 2 CompartmentType.lumen).mpGridBorders.mDimensions.extents.y)
      ∧ (exampleInstances 2 CompartmentType.lumen).transformGrid (exampleInstances 2)
          ⟨2, 5⟩ = (some CompartmentType.epithilium, ⟨2, -5⟩)
      ∧ ¬ ((exampleInstances 2 CompartmentType.epithilium).mpGridBorders.mDimensions.origin.y
          ≤ ((-5 : ℤ) : ℚ)) := by
  have g1 : (exampleInstances 2 CompartmentType.lumen).mpGridBorders.mDimensions
      = ⟨⟨0, 0⟩, ⟨5, 5⟩⟩ := by
    norm_num [exampleInstances, exampleConfig, Compartment.construct, Borders.construct,
      Borders.setBorderType]
  have g2 : (exampleInstances 2 CompartmentType.epithilium).mpGridBorders.mDimensions
      = ⟨⟨0, 0⟩, ⟨5, 2⟩⟩ := by
    norm_num [exampleInstances, exampleConfig, Compartment.construct, Borders.construct,
      Borders.setBorderType]
  refine ⟨g1, g2, ?_, ?_, ?_, ?_⟩
  · norm_num [Compartment.transformGrid, Compartment.transformGridLoop,
      Compartment.transformGridSwitch, Borders.boundsCheckGrid, Borders.boundsCheck,
      Borders.boundState, Borders.transform, exampleInstances, exampleConfig,
      Compartment.construct, Borders.construct, Borders.setBorderType, Vec2.get, Vec2.set,
      Compartment.dimensions, toInt]
    simp
  · rw [g1]
    norm_num
  · norm_num [Compartment.transformGrid, Compartment.transformGridLoop,
      Compartment.transformGridSwitch, Borders.boundsCheckGrid, Borders.boundsCheck,
      Borders.boundState, Borders.transform, exampleInstances, exampleConfig,
      Compartment.construct, Borders.construct, Borders.setBorderType, Vec2.get, Vec2.set,
      Compartment.dimensions, toInt]
    have c5 : (⌈(-5 : ℚ)⌉ : ℤ) = -5 := by
      rw [Int.ceil_eq_iff]
      norm_num
    simp [c5]
  · rw [g2]
    norm_num

/-! ## Agent movement: proofs -/

/-- C11: for an agent id present in this compartment and a point whose
transform resolves to a different compartment `T`, `moveTo` adds the agent to
`T` at the transformed point, removes it from this compartment, touches no
other compartment and returns exactly the result of the add. In the scenario
of the specification (the example lumen, 10 by 10 with cell size 1 and the
epithilium as HIGH-Y neighbour) `moveTo` of agent 7 to (5, 10.5) leaves the
agent in the epithilium at the point (5, 0.5), grid cell (5, 0), and absent
from the lumen. -/
theorem C11_moveTo_other_compartment {L : Type} (ops : LayerOps L)
    (INSTANCES : CompartmentType → Compartment) (world : CompartmentType → Members L)
    (C : Compartment) (id : Nat) (pt pt2 : Vec2 ℚ) (a : Agent) (T : CompartmentType) :
    (ops.getAgent (world C.mType).mpLayer id = some a →
        C.transform INSTANCES pt = (some T, pt2) →
        T ≠ C.mType →
        (C.moveTo ops INSTANCES world id pt).1
            = (ops.addAgent (world T).mpLayer (some a) pt2).1
          ∧ ((C.moveTo ops INSTANCES world id pt).2.1 T).mpLayer
            = (ops.addAgent (world T).mpLayer (some a) pt2).2
          ∧ ((C.moveTo ops INSTANCES world id pt).2.1 C.mType).mpLayer
            = ops.removeAgent (world C.mType).mpLayer (some a)
          ∧ (∀ t : CompartmentType, t ≠ T → t ≠ C.mType →
              (C.moveTo ops INSTANCES world id pt).2.1 t = world t)
          ∧ (C.moveTo ops INSTANCES world id pt).2.2 = pt2)
      ∧ ((exampleInstances 1 CompartmentType.lumen).moveTo exampleOps (exampleInstances 1)
            exampleWorld 7 ⟨5, 21 / 2⟩).1 = true
      ∧ exampleOps.getAgents
          (((exampleInstances 1 CompartmentType.lumen).moveTo exampleOps (exampleInstances 1)
            exampleWorld 7 ⟨5, 21 / 2⟩).2.1 CompartmentType.epithilium).mpLayer ⟨5, 0⟩ []
          = [⟨7, 1⟩]
      ∧ (((exampleInstances 1 CompartmentType.lumen).moveTo exampleOps (exampleInstances 1)
            exampleWorld 7 ⟨5, 21 / 2⟩).2.1 CompartmentType.epithilium).mpLayer.agents
          = [(⟨7, 1⟩, ⟨5, 1 / 2⟩)]
      ∧ exampleOps.getAgent
          (((exampleInstances 1 CompartmentType.lumen).moveTo exampleOps (exampleInstances 1)
            exampleWorld 7 ⟨5, 21 / 2⟩).2.1 CompartmentType.lumen).mpLayer 7 = none := by
  have tr : (exampleInstances 1 CompartmentType.lumen).transform (exampleInstances 1)
      ⟨5, 21 / 2⟩ = (some CompartmentType.epithilium, ⟨5, 1 / 2⟩) := by
    norm_num [Compartment.transform, Compartment.transformLoop, Compartment.transformSwitch,
      Borders.boundsCheck, Borders.boundState, Borders.transform, exampleInstances,
      exampleConfig, Compartment.construct, Borders.construct, Borders.setBorderType,
      Vec2.get, Vec2.set, Compartment.dimensions]
    simp
  have ty : (exampleInstances 1 CompartmentType.lumen).mType = CompartmentType.lumen := rfl
  refine ⟨?_, ?_, ?_, ?_, ?_⟩
  · intro hget htr hT
    have hne : ¬ (some T = some C.mType) := fun h => hT (Option.some.inj h)
    have hT2 : ¬ (T = C.mType) := hT
    have hT3 : ¬ (C.mType = T) := fun h => hT h.symm
    simp only [Compartment.moveTo, htr, hne, if_false, hget, Compartment.addAgent,
      Compartment.removeAgent, setMembers, Members.withLayer, if_true, hT2, hT3]
    refine ⟨trivial, trivial, trivial, ?_, trivial⟩
    intro t h1 h2
    simp [h1, h2]
  · simp [Compartment.moveTo, tr, ty]
    simp [Compartment.addAgent, exampleOps, exampleWorld]
  · simp [Compartment.moveTo, tr, ty, Compartment.addAgent, Compartment.removeAgent,
      setMembers, Members.withLayer, exampleOps, exampleWorld]
    norm_num
  · simp [Compartment.moveTo, tr, ty, Compartment.addAgent, Compartment.removeAgent,
      setMembers, Members.withLayer, exampleOps, exampleWorld]
  · simp [Compartment.moveTo, tr, ty, Compartment.addAgent, Compartment.removeAgent,
      setMembers, Members.withLayer, exampleOps, exampleWorld]

/-- Witness of C11: agent 7 of the example lumen, moved to (5, 10.5), is added
to the epithilium and removed from the lumen; the lamina propria is not
touched. -/
theorem C11_moveTo_other_compartment_witness :
    ((exampleInstances 1 CompartmentType.lumen).moveTo exampleOps (exampleInstances 1)
          exampleWorld 7 ⟨5, 21 / 2⟩).1
        = (exampleOps.addAgent (exampleWorld CompartmentType.epithilium).mpLayer
            (some ⟨7, 1⟩) ⟨5, 1 / 2⟩).1
      ∧ (((exampleInstances 1 CompartmentType.lumen).moveTo exampleOps (exampleInstances 1)
          exampleWorld 7 ⟨5, 21 / 2⟩).2.1 CompartmentType.lumen).mpLayer
        = exampleOps.removeAgent (exampleWorld CompartmentType.lumen).mpLayer (some ⟨7, 1⟩)
      ∧ ((exampleInstances 1 CompartmentType.lumen).moveTo exampleOps (exampleInstances 1)
          exampleWorld 7 ⟨5, 21 / 2⟩).2.1 CompartmentType.lamina_propria
        = exampleWorld CompartmentType.lamina_propria := by
  have tr : (exampleInstances 1 CompartmentType.lumen).transform (exampleInstances 1)
      ⟨5, 21 / 2⟩ = (some CompartmentType.epithilium, ⟨5, 1 / 2⟩) := by
    norm_num [Compartment.transform, Compartment.transformLoop, Compartment.transformSwitch,
      Borders.boundsCheck, Borders.boundState, Borders.transform, exampleInstances,
      exampleConfig, Compartment.construct, Borders.construct, Borders.setBorderType,
      Vec2.get, Vec2.set, Compartment.dimensions]
    simp
  have h := (C11_moveTo_other_compartment exampleOps (exampleInstances 1) exampleWorld
    (exampleInstances 1 CompartmentType.lumen) 7 ⟨5, 21 / 2⟩ ⟨5, 1 / 2⟩ ⟨7, 1⟩
    CompartmentType.epithilium).1
    (by simp [exampleOps, exampleWorld, exampleInstances, Compartment.construct])
    tr
    (by simp [exampleInstances, Compartment.construct])
  exact ⟨h.1, h.2.2.1, h.2.2.2.1 CompartmentType.lamina_propria (by decide)
    (by simp [exampleInstances, Compartment.construct])⟩

/-- Each coordinate of the location handed to the local move is obtained from
the classification of that coordinate alone. -/
theorem moveRandomLocation_get (C : Compartment) (current : Vec2 ℚ) (dx dy : ℚ)
    (i : Coodinate) :
    (C.moveRandomLocation current dx dy).get i
      = match (C.mpSpaceBorders.boundsCheck ⟨current.x + dx, current.y + dy⟩).2.get i with
        | BoundState.OUT_LOW =>
          C.mDimensions.origin.get i
            - C.mpSpaceBorders.distanceFromBorder ⟨current.x + dx, current.y + dy⟩ i Side.LOW
        | BoundState.OUT_HIGH =>
          C.mDimensions.origin.get i + C.mDimensions.extents.get i
            - C.mpSpaceBorders.distanceFromBorder ⟨current.x + dx, current.y + dy⟩ i Side.HIGH
        | BoundState.INBOUND => (⟨current.x + dx, current.y + dy⟩ : Vec2 ℚ).get i := by
  cases i <;>
    cases hsx : C.mpSpaceBorders.boundState Coodinate.X (current.x + dx) <;>
    cases hsy : C.mpSpaceBorders.boundState Coodinate.Y (current.y + dy) <;>
    simp [Compartment.moveRandomLocation, Borders.transform, Borders.boundsCheck,
      List.foldl, Vec2.get, hsx, hsy, Compartment.reflectSwitch,
      Borders.distanceFromBorder, Vec2.set]

/-- C12: `moveRandom` hands to the local move the location computed from the
current location and the displacement drawn. With the space borders built on
the dimensions of the compartment: when the new coordinate on axis `i`
overshoots the LOW edge by `d > 0` (signed distance `-d`), the coordinate
handed over is `origin + d`; when it overshoots the HIGH edge of a
non-negative extent by `d > 0` (signed distance `d`), it is
`origin + extent - d`: exactly `d` inside the violated edge, neither wrapped
nor clamped to the edge. A coordinate that is in bounds is left unchanged. -/
theorem C12_moveRandom_reflects {L : Type} (ops : LayerOps L) (m : Members L)
    (C : Compartment) (id : Nat) (current : Vec2 ℚ) (dx dy d : ℚ) (i : Coodinate) :
    C.moveRandom ops m id dx dy
        = ((ops.moveTo m.mpLayer id
              (C.moveRandomLocation (ops.getLocation m.mpLayer id ⟨0, 0⟩) dx dy)).1,
            m.withLayer (ops.moveTo m.mpLayer id
              (C.moveRandomLocation (ops.getLocation m.mpLayer id ⟨0, 0⟩) dx dy)).2)
      ∧ (C.mpSpaceBorders.mDimensions = C.mDimensions → 0 < d →
          (⟨current.x + dx, current.y + dy⟩ : Vec2 ℚ).get i = C.mDimensions.origin.get i - d →
          C.mpSpaceBorders.distanceFromBorder ⟨current.x + dx, current.y + dy⟩ i Side.LOW = -d
            ∧ (C.moveRandomLocation current dx dy).get i = C.mDimensions.origin.get i + d)
      ∧ (C.mpSpaceBorders.mDimensions = C.mDimensions → 0 < d →
          0 ≤ C.mDimensions.extents.get i →
          (⟨current.x + dx, current.y + dy⟩ : Vec2 ℚ).get i
            = C.mDimensions.origin.get i + C.mDimensions.extents.get i + d →
          C.mpSpaceBorders.distanceFromBorder ⟨current.x + dx, current.y + dy⟩ i Side.HIGH = d
            ∧ (C.moveRandomLocation current dx dy).get i
              = C.mDimensions.origin.get i + C.mDimensions.extents.get i - d)
      ∧ ((C.mpSpaceBorders.boundsCheck ⟨current.x + dx, current.y + dy⟩).2.get i
            = BoundState.INBOUND →
          (C.moveRandomLocation current dx dy).get i
            = (⟨current.x + dx, current.y + dy⟩ : Vec2 ℚ).get i) := by
  refine ⟨rfl, ?_, ?_, ?_⟩
  · intro hdim hd hnew
    have hdist : C.mpSpaceBorders.distanceFromBorder ⟨current.x + dx, current.y + dy⟩ i
        Side.LOW = -d := by
      simp only [Borders.distanceFromBorder, hdim, hnew]
      ring
    have hstate : (C.mpSpaceBorders.boundsCheck ⟨current.x + dx, current.y + dy⟩).2.get i
        = BoundState.OUT_LOW := by
      have hlt : (⟨current.x + dx, current.y + dy⟩ : Vec2 ℚ).get i
          < C.mpSpaceBorders.mDimensions.origin.get i := by
        rw [hdim, hnew]
        linarith
      cases i
      · simp only [Vec2.get] at hlt
        simp only [Borders.boundsCheck, Borders.boundState, Vec2.get, if_pos hlt]
      · simp only [Vec2.get] at hlt
        simp only [Borders.boundsCheck, Borders.boundState, Vec2.get, if_pos hlt]
    refine ⟨hdist, ?_⟩
    rw [moveRandomLocation_get, hstate]
    simp only [hdist]
    ring
  · intro hdim hd hext hnew
    have hdist : C.mpSpaceBorders.distanceFromBorder ⟨current.x + dx, current.y + dy⟩ i
        Side.HIGH = d := by
      simp only [Borders.distanceFromBorder, hdim, hnew]
      ring
    have hstate : (C.mpSpaceBorders.boundsCheck ⟨current.x + dx, current.y + dy⟩).2.get i
        = BoundState.OUT_HIGH := by
      have h1 : ¬ (⟨current.x + dx, current.y + dy⟩ : Vec2 ℚ).get i
          < C.mpSpaceBorders.mDimensions.origin.get i := by
        rw [hdim, hnew]
        intro h
        linarith
      have h2 : ¬ (⟨current.x + dx, current.y + dy⟩ : Vec2 ℚ).get i
          < C.mpSpaceBorders.mDimensions.origin.get i
            + C.mpSpaceBorders.mDimensions.extents.get i := by
        rw [hdim, hnew]
        intro h
        linarith
      cases i
      · simp only [Vec2.get] at h1 h2
        simp only [Borders.boundsCheck, Borders.boundState, Vec2.get, if_neg h1, if_neg h2]
      · simp only [Vec2.get] at h1 h2
        simp only [Borders.boundsCheck, Borders.boundState, Vec2.get, if_neg h1, if_neg h2]
    refine ⟨hdist, ?_⟩
    rw [moveRandomLocation_get, hstate]
    simp only [hdist]
  · intro hin
    rw [moveRandomLocation_get, hin]

/-- Witness of C12: in the example lumen (10 by 10) agent 8 sits at
(3.5, 2.5). A displacement of (-4, 0) overshoots the low X edge by 1/2 and is
handed over as X = 1/2; a displacement of (0, 8) overshoots the high Y edge by
1/2 and is handed over as Y = 19/2, X staying 7/2. -/
theorem C12_moveRandom_reflects_witness :
    ((exampleInstances 1 CompartmentType.lumen).moveRandomLocation ⟨7 / 2, 5 / 2⟩ (-4) 0).get
          Coodinate.X = 0 + 1 / 2
      ∧ ((exampleInstances 1 CompartmentType.lumen).moveRandomLocation ⟨7 / 2, 5 / 2⟩ 0 8).get
          Coodinate.Y = 0 + 10 - 1 / 2
      ∧ ((exampleInstances 1 CompartmentType.lumen).moveRandomLocation ⟨7 / 2, 5 / 2⟩ 0 8).get
          Coodinate.X = 7 / 2 := by
  have ext : (exampleInstances 1 CompartmentType.lumen).mDimensions.extents.get Coodinate.Y
      = 10 := by
    norm_num [exampleInstances, exampleConfig, Compartment.construct, Vec2.get]
  have org : ∀ i, (exampleInstances 1 CompartmentType.lumen).mDimensions.origin.get i = 0 := by
    intro i
    cases i <;> rfl
  have h1 := (C12_moveRandom_reflects exampleOps (exampleWorld CompartmentType.lumen)
    (exampleInstances 1 CompartmentType.lumen) 8 ⟨7 / 2, 5 / 2⟩ (-4) 0 (1 / 2)
    Coodinate.X).2.1 rfl (by norm_num)
    (by rw [org]; norm_num [Vec2.get])
  have h2 := (C12_moveRandom_reflects exampleOps (exampleWorld CompartmentType.lumen)
    (exampleInstances 1 CompartmentType.lumen) 8 ⟨7 / 2, 5 / 2⟩ 0 8 (1 / 2)
    Coodinate.Y).2.2.1 rfl (by norm_num) (by rw [ext]; norm_num)
    (by rw [org, ext]; norm_num [Vec2.get])
  have h3 := (C12_moveRandom_reflects exampleOps (exampleWorld CompartmentType.lumen)
    (exampleInstances 1 CompartmentType.lumen) 8 ⟨7 / 2, 5 / 2⟩ 0 8 (1 / 2)
    Coodinate.X).2.2.2
    (by
      norm_num [exampleInstances, exampleConfig, Compartment.construct,
        Borders.construct, Borders.setBorderType, Borders.boundsCheck, Borders.boundState,
        Vec2.get])
  rw [org] at h1
  rw [org, ext] at h2
  refine ⟨h1.2, h2.2, ?_⟩
  rw [h3]
  norm_num [Vec2.get]

/-! ## Fields: proofs -/

/-- A sequence of registrations returns consecutive indices, starting at the
number of fields registered before, and appends one field per name. -/
theorem addCytokines_spec {L : Type} (initialValue : String → ℚ) (C : Compartment)
    (names : List String) :
    ∀ m : Members L,
      (Compartment.addCytokines initialValue C m names).1
          = List.range' m.mCytokines.length names.length
        ∧ (Compartment.addCytokines initialValue C m names).2.mCytokines
          = m.mCytokines
            ++ List.zipWith
                (fun name k => Cytokine.construct initialValue (C.getName ++ "." ++ name) k)
                names (List.range' m.mCytokines.length names.length) := by
  induction names with
  | nil =>
    intro m
    simp [Compartment.addCytokines]
  | cons name rest ih =>
    intro m
    have h := ih (Compartment.addCytokine initialValue C m name).2
    have hl : (Compartment.addCytokine initialValue C m name).2.mCytokines.length
        = m.mCytokines.length + 1 := by
      simp [Compartment.addCytokine]
    have hc : (Compartment.addCytokine initialValue C m name).2.mCytokines
        = m.mCytokines
          ++ [Cytokine.construct initialValue (C.getName ++ "." ++ name) m.mCytokines.length] := by
      simp [Compartment.addCytokine]
    have h1 : (Compartment.addCytokine initialValue C m name).1 = m.mCytokines.length := by
      simp [Compartment.addCytokine, Cytokine.construct]
    rw [hl, hc] at h
    simp only [Compartment.addCytokines, List.length_cons, List.range'_succ,
      List.zipWith_cons_cons]
    refine ⟨?_, ?_⟩
    · rw [h.1, h1]
    · rw [h.2]
      simp

/-- C13: on a fresh compartment (empty field list) the `k`-th call of
`addCytokine`, counted from 0, returns `k`, whatever the names: each call
returns the number of fields registered before it and appends the field at
that position of the ordered list, with qualified name
`compartmentName + "." + name` and that index. Registering "IL6" then "IL12"
on the fresh example lumen yields 0 and 1. -/
theorem C13_addCytokine_sequential {L : Type} (initialValue : String → ℚ) (C : Compartment)
    (m : Members L) (name : String) (names : List String) (k : Nat) :
    (Compartment.addCytokine initialValue C m name).1 = m.mCytokines.length
      ∧ (Compartment.addCytokine initialValue C m name).2.mCytokines
        = m.mCytokines ++ [⟨C.getName ++ "." ++ name, m.mCytokines.length,
            initialValue (C.getName ++ "." ++ name)⟩]
      ∧ (m.mCytokines = [] →
          (Compartment.addCytokines initialValue C m names).1 = List.range names.length)
      ∧ (m.mCytokines = [] → ∀ h : k < names.length,
          (Compartment.addCytokines initialValue C m names).1.get? k = some k
            ∧ (Compartment.addCytokines initialValue C m names).2.mCytokines.get? k
              = some ⟨C.getName ++ "." ++ names.get ⟨k, h⟩, k,
                  initialValue (C.getName ++ "." ++ names.get ⟨k, h⟩)⟩)
      ∧ (Compartment.addCytokines exampleInitialValue (exampleInstances 1 CompartmentType.lumen)
          (exampleWorld CompartmentType.lumen) ["IL6", "IL12"]).1 = [0, 1]
      ∧ (Compartment.addCytokines exampleInitialValue (exampleInstances 1 CompartmentType.lumen)
          (exampleWorld CompartmentType.lumen) ["IL6", "IL12"]).2.mCytokines
        = [⟨"lumen.IL6", 0, 3⟩, ⟨"lumen.IL12", 1, 5⟩] := by
  have hs := addCytokines_spec initialValue C names m
  refine ⟨?_, ?_, ?_, ?_, ?_, ?_⟩
  · simp [Compartment.addCytokine, Cytokine.construct]
  · simp [Compartment.addCytokine, Cytokine.construct]
  · intro hm
    rw [hs.1, hm, List.length_nil, List.range_eq_range']
  · intro hm h
    rw [hs.1, hs.2, hm]
    simp only [List.length_nil, List.nil_append]
    refine ⟨?_, ?_⟩
    · rw [List.get?_eq_getElem?, List.getElem?_range' _ _ (by simpa using h)]
      simp
    · rw [List.get?_eq_getElem?, List.getElem?_zipWith]
      have h2 : k < (List.range' 0 names.length).length := by
        simpa using h
      rw [List.getElem?_eq_getElem h, List.getElem?_eq_getElem h2]
      simp [Cytokine.construct]
  · simp [Compartment.addCytokines, Compartment.addCytokine, Cytokine.construct, exampleWorld]
  · simp [Compartment.addCytokines, Compartment.addCytokine, Cytokine.construct, exampleWorld,
      exampleInitialValue, Compartment.getName, Names, exampleInstances, Compartment.construct]

/-- Witness of C13: three registrations on the fresh example epithilium, one
of them repeating a name; the call number 2 returns 2 and appends
`epithilium.IL6` at position 2. -/
theorem C13_addCytokine_sequential_witness :
    (Compartment.addCytokines exampleInitialValue
          (exampleInstances 1 CompartmentType.epithilium)
          (exampleWorld CompartmentType.epithilium) ["IL6", "IL12", "IL6"]).1
        = List.range 3
      ∧ (Compartment.addCytokines exampleInitialValue
          (exampleInstances 1 CompartmentType.epithilium)
          (exampleWorld CompartmentType.epithilium) ["IL6", "IL12", "IL6"]).1.get? 2 = some 2
      ∧ (Compartment.addCytokines exampleInitialValue
          (exampleInstances 1 CompartmentType.epithilium)
          (exampleWorld CompartmentType.epithilium)
          ["IL6", "IL12", "IL6"]).2.mCytokines.get? 2
        = some ⟨(exampleInstances 1 CompartmentType.epithilium).getName ++ "." ++ "IL6", 2,
            exampleInitialValue
              ((exampleInstances 1 CompartmentType.epithilium).getName ++ "." ++ "IL6")⟩ := by
  have h := C13_addCytokine_sequential exampleInitialValue
    (exampleInstances 1 CompartmentType.epithilium) (exampleWorld CompartmentType.epithilium)
    "IL6" ["IL6", "IL12", "IL6"] 2
  have h4 := h.2.2.2.1 rfl (by decide)
  exact ⟨h.2.2.1 rfl, h4.1, h4.2⟩

/-- C14, on the example lumen after `addCytokine("IL6")` called twice: the
field list has two entries, the map one (the second `insert` finds the key
present), so `InitialValues` is allocated with one slot while the loop over
the field list writes two: the second write is past the end of the vector,
and `initializeDiffuserData` has no defined result. After one registration
the same call seeds the cell (0, 0) with `[3]`, the initial value of the
field. -/
theorem C14_initialize_with_repeated_name :
    exampleRegisteredTwice.mCytokines.length = 2
      ∧ exampleRegisteredTwice.mCytokineMap = [("IL6", 0)]
      ∧ exampleRegisteredTwice.mpDiffuserValues = none
      ∧ writeInitialValues exampleRegisteredTwice.mCytokines 0
          (List.replicate exampleRegisteredTwice.mCytokineMap.length 0) = none
      ∧ Compartment.initializeDiffuserData exampleOps exampleRegisteredTwice [] = none
      ∧ ((exampleFieldWorld CompartmentType.lumen).mpDiffuserValues.map
          (fun d => d.get ⟨0, 0⟩)) = some [3] := by
  have e1 : exampleRegisteredTwice.mCytokines.length = 2 := by
    simp [exampleRegisteredTwice, exampleRegistered, Compartment.addCytokine, exampleWorld]
  have e2 : exampleRegisteredTwice.mCytokineMap = [("IL6", 0)] := by
    simp [exampleRegisteredTwice, exampleRegistered, Compartment.addCytokine, exampleWorld,
      mapInsert, mapFind, Cytokine.construct]
  have e3 : exampleRegisteredTwice.mpDiffuserValues = none := by
    simp [exampleRegisteredTwice, exampleRegistered, Compartment.addCytokine, exampleWorld]
  have e4 : writeInitialValues exampleRegisteredTwice.mCytokines 0
      (List.replicate exampleRegisteredTwice.mCytokineMap.length 0) = none := by
    rw [e2]
    simp [exampleRegisteredTwice, exampleRegistered, Compartment.addCytokine, exampleWorld,
      writeInitialValues]
  refine ⟨e1, e2, e3, e4, ?_, ?_⟩
  · unfold Compartment.initializeDiffuserData
    rw [e3, e4, e2]
    simp
  · simp [exampleFieldWorld, Compartment.initializeDiffuserData, exampleRegistered,
      Compartment.addCytokine, exampleWorld, mapInsert, mapFind, Cytokine.construct,
      writeInitialValues, Compartment.synchronizeDiffuser, exampleOps, setMembers,
      SharedValueLayer.construct, SharedValueLayer.get, gridCells, toInt,
      SharedValueLayer.assign, exampleInitialValue, Compartment.getName, Names,
      exampleInstances, Compartment.construct]
    simp [List.range_succ, List.flatMap]

/-- At cell size 2 the grid transform of the example lumen sends the cell
(2, 5) to row -5 of the epithilium. -/
theorem example2_lumen_high :
    (exampleInstances 2 CompartmentType.lumen).transformGrid (exampleInstances 2) ⟨2, 5⟩
      = (some CompartmentType.epithilium, ⟨2, -5⟩) := by
  norm_num [Compartment.transformGrid, Compartment.transformGridLoop,
    Compartment.transformGridSwitch, Borders.boundsCheckGrid, Borders.boundsCheck,
    Borders.boundState, Borders.transform, exampleInstances, exampleConfig,
    Compartment.construct, Borders.construct, Borders.setBorderType, Vec2.get, Vec2.set,
    Compartment.dimensions, toInt]
  have c5 : (⌈(-5 : ℚ)⌉ : ℤ) = -5 := by
    rw [Int.ceil_eq_iff]
    norm_num
  simp [c5]

/-- At cell size 2 the grid transform of the example epithilium sends the cell
(2, -5) back to row 5 of the lumen. -/
theorem example2_epithilium_low :
    (exampleInstances 2 CompartmentType.epithilium).transformGrid (exampleInstances 2) ⟨2, -5⟩
      = (some CompartmentType.lumen, ⟨2, 5⟩) := by
  norm_num [Compartment.transformGrid, Compartment.transformGridLoop,
    Compartment.transformGridSwitch, Borders.boundsCheckGrid, Borders.boundsCheck,
    Borders.boundState, Borders.transform, exampleInstances, exampleConfig,
    Compartment.construct, Borders.construct, Borders.setBorderType, Vec2.get, Vec2.set,
    Compartment.dimensions, toInt]
  simp

/-- At cell size 2 the grid transform of the example epithilium sends the cell
(2, -1) to row 9 of the lumen. -/
theorem example2_epithilium_below :
    (exampleInstances 2 CompartmentType.epithilium).transformGrid (exampleInstances 2) ⟨2, -1⟩
      = (some CompartmentType.lumen, ⟨2, 9⟩) := by
  norm_num [Compartment.transformGrid, Compartment.transformGridLoop,
    Compartment.transformGridSwitch, Borders.boundsCheckGrid, Borders.boundsCheck,
    Borders.boundState, Borders.transform, exampleInstances, exampleConfig,
    Compartment.construct, Borders.construct, Borders.setBorderType, Vec2.get, Vec2.set,
    Compartment.dimensions, toInt]
  simp

/-- At cell size 2 the grid transform of the example lumen sends the cell
(2, 9) back to row -1 of the epithilium. -/
theorem example2_lumen_above :
    (exampleInstances 2 CompartmentType.lumen).transformGrid (exampleInstances 2) ⟨2, 9⟩
      = (some CompartmentType.epithilium, ⟨2, -1⟩) := by
  norm_num [Compartment.transformGrid, Compartment.transformGridLoop,
    Compartment.transformGridSwitch, Borders.boundsCheckGrid, Borders.boundsCheck,
    Borders.boundState, Borders.transform, exampleInstances, exampleConfig,
    Compartment.construct, Borders.construct, Borders.setBorderType, Vec2.get, Vec2.set,
    Compartment.dimensions, toInt]
  have c1 : (⌈(-1 : ℚ)⌉ : ℤ) = -1 := by
    rw [Int.ceil_eq_iff]
    norm_num
  simp [c1]

/-- When the grid transform of `A` sends `a` to `b` in `B` and that of `B`
sends `b` back to `a` in `A`, `cytokineValue` produces nothing from either
point, whatever the fuel. -/
theorem cytokineValue_cycle {L : Type} (ops : LayerOps L)
    (INSTANCES : CompartmentType → Compartment) (TA TB : CompartmentType) (a b : Vec2 ℤ)
    (hA : (INSTANCES TA).transformGrid INSTANCES a = (some TB, b))
    (hB : (INSTANCES TB).transformGrid INSTANCES b = (some TA, a))
    (hTB : TB ≠ (INSTANCES TA).mType) (hTA : TA ≠ (INSTANCES TB).mType) :
    ∀ (fuel : Nat) (world : CompartmentType → Members L) (name : String),
      Compartment.cytokineValue ops INSTANCES fuel world (INSTANCES TA) name a
          = (ValueOutcome.outOfFuel, world)
        ∧ Compartment.cytokineValue ops INSTANCES fuel world (INSTANCES TB) name b
          = (ValueOutcome.outOfFuel, world) := by
  intro fuel
  induction fuel with
  | zero =>
    intro world name
    exact ⟨rfl, rfl⟩
  | succ n ih =>
    intro world name
    have h := ih world name
    have nA : ¬ (some TB = some (INSTANCES TA).mType) := fun e => hTB (Option.some.inj e)
    have nB : ¬ (some TA = some (INSTANCES TB).mType) := fun e => hTA (Option.some.inj e)
    constructor
    · simp only [Compartment.cytokineValue, hA, nA, if_false]
      exact h.2
    · simp only [Compartment.cytokineValue, hB, nB, if_false]
      exact h.1

/-- When the grid transform yields no compartment, `cytokineValue` raises the
not-found error. -/
theorem cytokineValue_null {L : Type} (ops : LayerOps L)
    (INSTANCES : CompartmentType → Compartment) (fuel : Nat)
    (world : CompartmentType → Members L) (C : Compartment) (name : String) (pt q : Vec2 ℤ)
    (h : C.transformGrid INSTANCES pt = (none, q)) :
    Compartment.cytokineValue ops INSTANCES (fuel + 1) world C name pt
      = (ValueOutcome.notFound, world) := by
  simp [Compartment.cytokineValue, h]

/-- When the grid transform returns this compartment, `cytokineValue` returns
the slot of the vector `cytokineValues` finds for the coordinate, and raises
the not-found error when the coordinate is neither in the local partition nor
in a ghost snapshot. -/
theorem cytokineValue_this {L : Type} (ops : LayerOps L)
    (INSTANCES : CompartmentType → Compartment) (fuel : Nat)
    (world : CompartmentType → Members L) (C : Compartment) (name : String) (pt q : Vec2 ℤ)
    (h : C.transformGrid INSTANCES pt = (some C.mType, q)) :
    (∀ v, Compartment.cytokineValues ops (world C.mType) q = ValuesOutcome.found v →
        (Compartment.cytokineValue ops INSTANCES (fuel + 1) world C name pt).1
          = ValueOutcome.entry v (mapIndex (world C.mType).mCytokineMap name).1)
      ∧ ((ops.gridDimensions (world C.mType).mpLayer).contains q = false →
        (ops.nonLocalValues (world C.mType).mpLayer).findSome? (fun g => g.tryLocation q)
          = none →
        Compartment.cytokineValue ops INSTANCES (fuel + 1) world C name pt
          = (ValueOutcome.notFound, world)) := by
  constructor
  · intro v hv
    simp [Compartment.cytokineValue, h, hv]
  · intro hc hn
    simp [Compartment.cytokineValue, h, Compartment.cytokineValues, hc, hn]

/-- The sentinel `NaN` is never what `cytokineValue` produces: the `throw`
comes first. -/
theorem cytokineValue_never_nan {L : Type} (ops : LayerOps L)
    (INSTANCES : CompartmentType → Compartment) :
    ∀ (fuel : Nat) (world : CompartmentType → Members L) (C : Compartment) (name : String)
      (pt : Vec2 ℤ),
      (Compartment.cytokineValue ops INSTANCES fuel world C name pt).1 ≠ ValueOutcome.nan := by
  intro fuel
  induction fuel with
  | zero =>
    intro world C name pt
    simp [Compartment.cytokineValue]
  | succ n ih =>
    intro world C name pt
    simp only [Compartment.cytokineValue]
    split_ifs with h1
    · cases Compartment.cytokineValues ops (world C.mType)
        (C.transformGrid INSTANCES pt).2 <;> simp
    · cases h2 : (C.transformGrid INSTANCES pt).1 with
      | none => simp
      | some target => exact ih world (INSTANCES target) name _

/-- C15, at cell size 2 in the example configuration: from the grid cell
(2, 5) of the lumen, the first cell past its high Y edge, `cytokineValue`
neither returns an entry nor raises the not-found error, whatever the field
name, the state and the fuel: the lumen hands the call to the epithilium at
(2, -5), which hands it back to the lumen at (2, 5). -/
theorem C15_cytokineValue_produces_nothing {L : Type} (ops : LayerOps L) (fuel : Nat)
    (world : CompartmentType → Members L) (name : String) :
    Compartment.cytokineValue ops (exampleInstances 2) fuel world
        (exampleInstances 2 CompartmentType.lumen) name ⟨2, 5⟩
        = (ValueOutcome.outOfFuel, world)
      ∧ (Compartment.cytokineValue ops (exampleInstances 2) fuel world
        (exampleInstances 2 CompartmentType.lumen) name ⟨2, 5⟩).1 ≠ ValueOutcome.notFound
      ∧ ∀ (v : List ℚ) (index : Nat),
        (Compartment.cytokineValue ops (exampleInstances 2) fuel world
          (exampleInstances 2 CompartmentType.lumen) name ⟨2, 5⟩).1
          ≠ ValueOutcome.entry v index := by
  have h := (cytokineValue_cycle ops (exampleInstances 2) CompartmentType.lumen
    CompartmentType.epithilium ⟨2, 5⟩ ⟨2, -5⟩ example2_lumen_high example2_epithilium_low
    (by simp [exampleInstances, Compartment.construct])
    (by simp [exampleInstances, Compartment.construct]) fuel world name).1
  refine ⟨h, ?_, ?_⟩
  · rw [h]
    simp
  · intro v index
    rw [h]
    simp

/-- C19, at cell size 2 in the example configuration (positive extents,
adjacency as the constructor builds it): the chain of hand-offs of
`cytokineValue` from the grid cell (2, -1) of the epithilium, one cell below
its low Y edge, never ends. The grid transform of the epithilium hands (2, -1)
to the lumen as (2, 9); the grid of the lumen has 5 rows, so its grid transform
hands (2, 9) back to the epithilium as (2, -1); no fuel is enough to reach a
compartment whose transform returns itself, or a null target. -/
theorem C19_hand_off_chain_cycles {L : Type} (ops : LayerOps L) (fuel : Nat)
    (world : CompartmentType → Members L) (name : String) :
    (exampleInstances 2 CompartmentType.epithilium).transformGrid (exampleInstances 2) ⟨2, -1⟩
        = (some CompartmentType.lumen, ⟨2, 9⟩)
      ∧ (exampleInstances 2 CompartmentType.lumen).transformGrid (exampleInstances 2) ⟨2, 9⟩
        = (some CompartmentType.epithilium, ⟨2, -1⟩)
      ∧ Compartment.cytokineValue ops (exampleInstances 2) fuel world
          (exampleInstances 2 CompartmentType.epithilium) name ⟨2, -1⟩
        = (ValueOutcome.outOfFuel, world) := by
  refine ⟨example2_epithilium_below, example2_lumen_above, ?_⟩
  exact (cytokineValue_cycle ops (exampleInstances 2) CompartmentType.epithilium
    CompartmentType.lumen ⟨2, -1⟩ ⟨2, 9⟩ example2_epithilium_below example2_lumen_above
    (by simp [exampleInstances, Compartment.construct])
    (by simp [exampleInstances, Compartment.construct]) fuel world name).1

/-- The example lumen after one registration and the initialisation: its
field list, its map, its layer, and the vector at the cell (0, 0). -/
theorem exampleFieldWorld_lumen :
    (exampleFieldWorld CompartmentType.lumen).mCytokines = [⟨"lumen.IL6", 0, 3⟩]
      ∧ (exampleFieldWorld CompartmentType.lumen).mCytokineMap = [("IL6", 0)]
      ∧ (exampleFieldWorld CompartmentType.lumen).mpLayer
        = (exampleWorld CompartmentType.lumen).mpLayer
      ∧ Compartment.cytokineValues exampleOps (exampleFieldWorld CompartmentType.lumen) ⟨0, 0⟩
        = ValuesOutcome.found [3] := by
  refine ⟨?_, ?_, ?_, ?_⟩
  · simp [exampleFieldWorld, Compartment.initializeDiffuserData, exampleRegistered,
      Compartment.addCytokine, exampleWorld, mapInsert, mapFind, Cytokine.construct,
      writeInitialValues, Compartment.synchronizeDiffuser, exampleOps, setMembers,
      SharedValueLayer.construct, SharedValueLayer.get, gridCells, toInt,
      SharedValueLayer.assign, exampleInitialValue, Compartment.getName, Names,
      exampleInstances, Compartment.construct]
  · simp [exampleFieldWorld, Compartment.initializeDiffuserData, exampleRegistered,
      Compartment.addCytokine, exampleWorld, mapInsert, mapFind, Cytokine.construct,
      writeInitialValues, Compartment.synchronizeDiffuser, exampleOps, setMembers,
      SharedValueLayer.construct, SharedValueLayer.get, gridCells, toInt,
      SharedValueLayer.assign, exampleInitialValue, Compartment.getName, Names,
      exampleInstances, Compartment.construct]
  · simp [exampleFieldWorld, Compartment.initializeDiffuserData, exampleRegistered,
      Compartment.addCytokine, exampleWorld, mapInsert, mapFind, Cytokine.construct,
      writeInitialValues, Compartment.synchronizeDiffuser, exampleOps, setMembers,
      SharedValueLayer.construct, SharedValueLayer.get, gridCells, toInt,
      SharedValueLayer.assign, exampleInitialValue, Compartment.getName, Names,
      exampleInstances, Compartment.construct]
  · simp [Compartment.cytokineValues, GridDimensions.contains, exampleFieldWorld, Compartment.initializeDiffuserData, exampleRegistered,
      Compartment.addCytokine, exampleWorld, mapInsert, mapFind, Cytokine.construct,
      writeInitialValues, Compartment.synchronizeDiffuser, exampleOps, setMembers,
      SharedValueLayer.construct, SharedValueLayer.get, gridCells, toInt,
      SharedValueLayer.assign, exampleInitialValue, Compartment.getName, Names,
      exampleInstances, Compartment.construct]
    simp [List.range_succ, List.flatMap]

/-- The grid cell (0, 0) of the example lumen is inside its grid borders. -/
theorem example_lumen_origin_inside :
    (exampleInstances 1 CompartmentType.lumen).transformGrid (exampleInstances 1) ⟨0, 0⟩
      = (some CompartmentType.lumen, ⟨0, 0⟩) := by
  have h := transformGrid_inside (exampleInstances 1)
    (exampleInstances 1 CompartmentType.lumen) ⟨0, 0⟩
    (by
      norm_num [exampleInstances, exampleConfig, Compartment.construct,
        Borders.construct, Borders.setBorderType, Borders.boundsCheckGrid,
        Borders.boundsCheck, Borders.boundState, Vec2.get])
  exact h

/-- C16, on the example lumen with the single field "IL6" registered and
initialised: "IL12" was never registered and `getCytokine("IL12")` is null, yet
`cytokineValue("IL12", (0, 0))` raises nothing: `mCytokineMap["IL12"]` inserts
the name with index 0 and the call returns slot 0 of the vector at the cell,
the entry of "IL6". Afterwards the map has two entries and
`getCytokine("IL12")` returns the field "IL6". -/
theorem C16_unregistered_name_returns_slot_zero :
    Compartment.getCytokine (exampleFieldWorld CompartmentType.lumen) "IL12" = none
      ∧ mapFind (exampleFieldWorld CompartmentType.lumen).mCytokineMap "IL12" = none
      ∧ (Compartment.cytokineValue exampleOps (exampleInstances 1) 1 exampleFieldWorld
          (exampleInstances 1 CompartmentType.lumen) "IL12" ⟨0, 0⟩).1
        = ValueOutcome.entry [3] 0
      ∧ ((Compartment.cytokineValue exampleOps (exampleInstances 1) 1 exampleFieldWorld
          (exampleInstances 1 CompartmentType.lumen) "IL12" ⟨0, 0⟩).2
            CompartmentType.lumen).mCytokineMap
        = [("IL6", 0), ("IL12", 0)]
      ∧ Compartment.getCytokine
          ((Compartment.cytokineValue exampleOps (exampleInstances 1) 1 exampleFieldWorld
            (exampleInstances 1 CompartmentType.lumen) "IL12" ⟨0, 0⟩).2 CompartmentType.lumen)
          "IL12"
        = some ⟨"lumen.IL6", 0, 3⟩ := by
  obtain ⟨hc, hm, -, hv⟩ := exampleFieldWorld_lumen
  have ty : (exampleInstances 1 CompartmentType.lumen).mType = CompartmentType.lumen := rfl
  have hfind : mapFind (exampleFieldWorld CompartmentType.lumen).mCytokineMap "IL12"
      = none := by
    rw [hm]
    simp [mapFind]
  have hidx : mapIndex (exampleFieldWorld CompartmentType.lumen).mCytokineMap "IL12"
      = (0, [("IL6", 0), ("IL12", 0)]) := by
    unfold mapIndex
    rw [hfind, hm]
    rfl
  refine ⟨?_, hfind, ?_, ?_, ?_⟩
  · simp [Compartment.getCytokine, hfind]
  · simp [Compartment.cytokineValue, example_lumen_origin_inside, ty, hv, hidx]
  · simp [Compartment.cytokineValue, example_lumen_origin_inside, ty, hv, hidx, setMembers]
  · simp [Compartment.cytokineValue, example_lumen_origin_inside, ty, hv, hidx, setMembers,
      Compartment.getCytokine, mapFind, hc]

/-! ## Agent queries and ranks: proofs -/

/-- One cell below the low Y edge of the example epithilium (cell size 1), the
grid transform hands the cell (5, -1) to the lumen as (5, 9). -/
theorem example_epithilium_below :
    (exampleInstances 1 CompartmentType.epithilium).transformGrid (exampleInstances 1) ⟨5, -1⟩
      = (some CompartmentType.lumen, ⟨5, 9⟩) := by
  norm_num [Compartment.transformGrid, Compartment.transformGridLoop,
    Compartment.transformGridSwitch, Borders.boundsCheckGrid, Borders.boundsCheck,
    Borders.boundState, Borders.transform, exampleInstances, exampleConfig,
    Compartment.construct, Borders.construct, Borders.setBorderType, Vec2.get, Vec2.set,
    Compartment.dimensions, toInt]
  simp

/-- The grid cells (3, 2) and (4, 2) of the example lumen are inside its grid
borders. -/
theorem example_lumen_cells_inside :
    (exampleInstances 1 CompartmentType.lumen).transformGrid (exampleInstances 1) ⟨3, 2⟩
        = (some CompartmentType.lumen, ⟨3, 2⟩)
      ∧ (exampleInstances 1 CompartmentType.lumen).transformGrid (exampleInstances 1) ⟨4, 2⟩
        = (some CompartmentType.lumen, ⟨4, 2⟩) := by
  constructor
  · exact transformGrid_inside (exampleInstances 1)
      (exampleInstances 1 CompartmentType.lumen) ⟨3, 2⟩
      (by
        norm_num [exampleInstances, exampleConfig, Compartment.construct,
          Borders.construct, Borders.setBorderType, Borders.boundsCheckGrid,
          Borders.boundsCheck, Borders.boundState, Vec2.get])
  · exact transformGrid_inside (exampleInstances 1)
      (exampleInstances 1 CompartmentType.lumen) ⟨4, 2⟩
      (by
        norm_num [exampleInstances, exampleConfig, Compartment.construct,
          Borders.construct, Borders.setBorderType, Borders.boundsCheckGrid,
          Borders.boundsCheck, Borders.boundState, Vec2.get])

/-- The agents of the example lumen by cell: agent 8 in (3, 2), agent 7 in
(5, 9), nobody in (2, 2), (4, 2) and (5, 0). -/
theorem example_lumen_agents :
    exampleOps.getAgents (exampleWorld CompartmentType.lumen).mpLayer ⟨3, 2⟩ [] = [⟨8, 1⟩]
      ∧ exampleOps.getAgents (exampleWorld CompartmentType.lumen).mpLayer ⟨5, 9⟩ [] = [⟨7, 1⟩]
      ∧ exampleOps.getAgents (exampleWorld CompartmentType.lumen).mpLayer ⟨2, 2⟩ [] = []
      ∧ exampleOps.getAgents (exampleWorld CompartmentType.lumen).mpLayer ⟨4, 2⟩ [] = []
      ∧ exampleOps.getAgents (exampleWorld CompartmentType.lumen).mpLayer ⟨5, 0⟩ [] = [] := by
  have f1 : (⌊(48 / 5 : ℚ)⌋ : ℤ) = 9 := by
    rw [Int.floor_eq_iff]
    norm_num
  have f2 : (⌊(7 / 2 : ℚ)⌋ : ℤ) = 3 := by
    rw [Int.floor_eq_iff]
    norm_num
  have f3 : (⌊(5 / 2 : ℚ)⌋ : ℤ) = 2 := by
    rw [Int.floor_eq_iff]
    norm_num
  have f4 : (⌊(5 : ℚ)⌋ : ℤ) = 5 := by
    rw [Int.floor_eq_iff]
    norm_num
  refine ⟨?_, ?_, ?_, ?_, ?_⟩ <;>
    simp [exampleOps, exampleWorld, List.filter, f1, f2, f3, f4]

/-- C17, on the example state (cell size 1): the offset query computes the
offset cell in `Location` and then asks the layer for the cell `pt`.
In the lumen, `getAgents((2, 2), 1, 0)` returns nobody although agent 8 sits in
the offset cell (3, 2), and `getAgents((3, 2), 1, 0)` returns agent 8 although
the offset cell (4, 2) is empty. In the epithilium, `getAgents((5, 0), 0, -1)`
crosses into the lumen at the cell (5, 9), where agent 7 sits, and returns the
agents of the lumen at (5, 0): nobody. -/
theorem C17_getAgents_offset_ignores_offset :
    Compartment.getAgentsOffset exampleOps (exampleInstances 1) exampleWorld
        (exampleInstances 1 CompartmentType.lumen) ⟨2, 2⟩ 1 0 [] = []
      ∧ exampleOps.getAgents (exampleWorld CompartmentType.lumen).mpLayer ⟨2 + 1, 2 + 0⟩ []
        = [⟨8, 1⟩]
      ∧ Compartment.getAgentsOffset exampleOps (exampleInstances 1) exampleWorld
        (exampleInstances 1 CompartmentType.lumen) ⟨3, 2⟩ 1 0 [] = [⟨8, 1⟩]
      ∧ exampleOps.getAgents (exampleWorld CompartmentType.lumen).mpLayer ⟨3 + 1, 2 + 0⟩ []
        = []
      ∧ (exampleInstances 1 CompartmentType.epithilium).transformGrid (exampleInstances 1)
          ⟨5 + 0, 0 + -1⟩ = (some CompartmentType.lumen, ⟨5, 9⟩)
      ∧ Compartment.getAgentsOffset exampleOps (exampleInstances 1) exampleWorld
        (exampleInstances 1 CompartmentType.epithilium) ⟨5, 0⟩ 0 (-1) [] = []
      ∧ Compartment.getAgents exampleOps (exampleWorld CompartmentType.lumen) ⟨5, 9⟩ []
        = [⟨7, 1⟩] := by
  obtain ⟨a32, a59, a22, a42, a50⟩ := example_lumen_agents
  obtain ⟨i32, i42⟩ := example_lumen_cells_inside
  have tyL : (exampleInstances 1 CompartmentType.lumen).mType = CompartmentType.lumen := rfl
  have tyE : (exampleInstances 1 CompartmentType.epithilium).mType
      = CompartmentType.epithilium := rfl
  have o1 : ((2 : ℤ) + 1 = 3) ∧ ((2 : ℤ) + 0 = 2) ∧ ((3 : ℤ) + 1 = 4) ∧ ((5 : ℤ) + 0 = 5)
      ∧ ((0 : ℤ) + -1 = -1) := by
    norm_num
  obtain ⟨o21, o20, o31, o50, o01⟩ := o1
  refine ⟨?_, ?_, ?_, ?_, ?_, ?_, ?_⟩
  · simp only [Compartment.getAgentsOffset, o21, o20, i32, tyL, if_true]
    exact a22
  · rw [o21, o20]
    exact a32
  · simp only [Compartment.getAgentsOffset, o31, o20, i42, tyL, if_true]
    exact a32
  · rw [o31, o20]
    exact a42
  · rw [o50, o01]
    exact example_epithilium_below
  · simp only [Compartment.getAgentsOffset, o50, o01, example_epithilium_below, tyE]
    simp only [reduceCtorEq, Option.some.injEq, if_false, Compartment.getAgents]
    exact a50
  · exact a59

/-- The grid cell (5, 9) of the example lumen is inside its grid borders. -/
theorem example_lumen_top_inside :
    (exampleInstances 1 CompartmentType.lumen).transformGrid (exampleInstances 1) ⟨5, 9⟩
      = (some CompartmentType.lumen, ⟨5, 9⟩) :=
  transformGrid_inside (exampleInstances 1) (exampleInstances 1 CompartmentType.lumen) ⟨5, 9⟩
    (by
      norm_num [exampleInstances, exampleConfig, Compartment.construct,
        Borders.construct, Borders.setBorderType, Borders.boundsCheckGrid,
        Borders.boundsCheck, Borders.boundState, Vec2.get])

/-- C20, on the example state (cell size 1, the lumen on rank 0, the
epithilium on rank 1): the grid transform of the epithilium maps the location
(5, -1) into the lumen as (5, 9), for which `getRank` of the lumen returns 0;
`getRank` of the epithilium makes that call, drops its value (the `return` is
missing) and returns `(size_t) INVALID`, 4, although the transform yielded a
compartment. -/
theorem C20_getRank_drops_neighbour_rank (fuel : Nat) :
    (exampleInstances 1 CompartmentType.epithilium).transformGrid (exampleInstances 1) ⟨5, -1⟩
        = (some CompartmentType.lumen, ⟨5, 9⟩)
      ∧ Compartment.getRank exampleOps (exampleInstances 1) exampleWorld (fuel + 1)
          (exampleInstances 1 CompartmentType.lumen) ⟨5, 9⟩ = some 0
      ∧ Compartment.getRank exampleOps (exampleInstances 1) exampleWorld (fuel + 2)
          (exampleInstances 1 CompartmentType.epithilium) ⟨5, -1⟩ = some invalidRank
      ∧ invalidRank = 4
      ∧ Compartment.getRankOffset exampleOps (exampleInstances 1) exampleWorld (fuel + 2)
          (exampleInstances 1 CompartmentType.epithilium) ⟨5, 0⟩ 0 (-1) = some invalidRank := by
  have tyL : (exampleInstances 1 CompartmentType.lumen).mType = CompartmentType.lumen := rfl
  have tyE : (exampleInstances 1 CompartmentType.epithilium).mType
      = CompartmentType.epithilium := rfl
  have r1 : Compartment.getRank exampleOps (exampleInstances 1) exampleWorld (fuel + 1)
      (exampleInstances 1 CompartmentType.lumen) ⟨5, 9⟩ = some 0 := by
    simp only [Compartment.getRank, example_lumen_top_inside, tyL, if_true]
    rfl
  have r2 : Compartment.getRank exampleOps (exampleInstances 1) exampleWorld (fuel + 2)
      (exampleInstances 1 CompartmentType.epithilium) ⟨5, -1⟩ = some invalidRank := by
    have hne : ¬ (some CompartmentType.lumen = some CompartmentType.epithilium) := by
      decide
    rw [Compartment.getRank]
    simp only [example_epithilium_below, tyE, hne, if_false]
    rw [r1]
  refine ⟨example_epithilium_below, r1, r2, rfl, ?_⟩
  have o : ((5 : ℤ) + 0 = 5) ∧ ((0 : ℤ) + -1 = -1) := by
    norm_num
  simp only [Compartment.getRankOffset, o.1, o.2]
  exact r2

/-! ## Fields: the map and the list -/

/-- Registering a name that the map already holds leaves the map as it is and
still appends a field to the list: the list grows, the map does not. -/
theorem addCytokine_repeated_name {L : Type} (initialValue : String → ℚ) (C : Compartment)
    (m : Members L) (name : String) (index : Nat)
    (h : mapFind m.mCytokineMap name = some index) :
    (Compartment.addCytokine initialValue C m name).2.mCytokineMap = m.mCytokineMap
      ∧ (Compartment.addCytokine initialValue C m name).2.mCytokines.length
        = m.mCytokines.length + 1
      ∧ (Compartment.addCytokine initialValue C m name).1 = m.mCytokines.length := by
  refine ⟨?_, ?_, ?_⟩
  · simp [Compartment.addCytokine, mapInsert, h]
  · simp [Compartment.addCytokine]
  · simp [Compartment.addCytokine, Cytokine.construct]

/-- C21, on the fresh example epithilium after `addCytokine` of "IL6", "IL12"
and "IL6" again: the calls return 0, 1 and 2 and the field list has three
entries, but the map has two, and for "IL6" it holds 0, the index of the first
registration, not the 2 returned by the most recent call; `getCytokine("IL6")`
returns the field of index 0. In `initializeDiffuserData` the vector
`InitialValues`, sized by the map, has two slots for the three fields written
into it: the third write is past its end and the call has no defined
result. -/
theorem C21_map_and_list_after_repeated_name :
    (Compartment.addCytokines exampleInitialValue
          (exampleInstances 1 CompartmentType.epithilium)
          (exampleWorld CompartmentType.epithilium) ["IL6", "IL12", "IL6"]).1 = [0, 1, 2]
      ∧ (Compartment.addCytokines exampleInitialValue
          (exampleInstances 1 CompartmentType.epithilium)
          (exampleWorld CompartmentType.epithilium)
          ["IL6", "IL12", "IL6"]).2.mCytokines.length = 3
      ∧ (Compartment.addCytokines exampleInitialValue
          (exampleInstances 1 CompartmentType.epithilium)
          (exampleWorld CompartmentType.epithilium) ["IL6", "IL12", "IL6"]).2.mCytokineMap
        = [("IL6", 0), ("IL12", 1)]
      ∧ mapFind (Compartment.addCytokines exampleInitialValue
          (exampleInstances 1 CompartmentType.epithilium)
          (exampleWorld CompartmentType.epithilium) ["IL6", "IL12", "IL6"]).2.mCytokineMap
          "IL6" = some 0
      ∧ (Compartment.getCytokine (Compartment.addCytokines exampleInitialValue
          (exampleInstances 1 CompartmentType.epithilium)
          (exampleWorld CompartmentType.epithilium) ["IL6", "IL12", "IL6"]).2 "IL6").map
          (fun c => c.mIndex) = some 0
      ∧ writeInitialValues (Compartment.addCytokines exampleInitialValue
          (exampleInstances 1 CompartmentType.epithilium)
          (exampleWorld CompartmentType.epithilium) ["IL6", "IL12", "IL6"]).2.mCytokines 0
          (List.replicate (Compartment.addCytokines exampleInitialValue
            (exampleInstances 1 CompartmentType.epithilium)
            (exampleWorld CompartmentType.epithilium)
            ["IL6", "IL12", "IL6"]).2.mCytokineMap.length 0) = none
      ∧ Compartment.initializeDiffuserData exampleOps (Compartment.addCytokines
          exampleInitialValue (exampleInstances 1 CompartmentType.epithilium)
          (exampleWorld CompartmentType.epithilium) ["IL6", "IL12", "IL6"]).2 [] = none := by
  have e1 : (Compartment.addCytokines exampleInitialValue
      (exampleInstances 1 CompartmentType.epithilium)
      (exampleWorld CompartmentType.epithilium) ["IL6", "IL12", "IL6"]).1 = [0, 1, 2] := by
    simp [Compartment.addCytokines, Compartment.addCytokine, Cytokine.construct, exampleWorld]
  have e2 : (Compartment.addCytokines exampleInitialValue
      (exampleInstances 1 CompartmentType.epithilium)
      (exampleWorld CompartmentType.epithilium)
      ["IL6", "IL12", "IL6"]).2.mCytokines.length = 3 := by
    simp [Compartment.addCytokines, Compartment.addCytokine, exampleWorld]
  have e3 : (Compartment.addCytokines exampleInitialValue
      (exampleInstances 1 CompartmentType.epithilium)
      (exampleWorld CompartmentType.epithilium) ["IL6", "IL12", "IL6"]).2.mCytokineMap
      = [("IL6", 0), ("IL12", 1)] := by
    simp [Compartment.addCytokines, Compartment.addCytokine, Cytokine.construct, exampleWorld,
      mapInsert, mapFind]
  have e4 : (Compartment.addCytokines exampleInitialValue
      (exampleInstances 1 CompartmentType.epithilium)
      (exampleWorld CompartmentType.epithilium) ["IL6", "IL12", "IL6"]).2.mpDiffuserValues
      = none := by
    simp [Compartment.addCytokines, Compartment.addCytokine, exampleWorld]
  have e5 : writeInitialValues (Compartment.addCytokines exampleInitialValue
      (exampleInstances 1 CompartmentType.epithilium)
      (exampleWorld CompartmentType.epithilium) ["IL6", "IL12", "IL6"]).2.mCytokines 0
      (List.replicate 2 0) = none := by
    simp [Compartment.addCytokines, Compartment.addCytokine, exampleWorld, writeInitialValues]
  refine ⟨e1, e2, e3, ?_, ?_, ?_, ?_⟩
  · rw [e3]
    simp [mapFind]
  · simp [Compartment.getCytokine, e3, mapFind]
    simp [Compartment.addCytokines, Compartment.addCytokine, Cytokine.construct, exampleWorld]
  · rw [e3]
    exact e5
  · unfold Compartment.initializeDiffuserData
    rw [e4, e3]
    simp only [List.length_cons, List.length_nil]
    rw [e5]
    simp

end ENISI
